import Mathlib

/-!
Verification development for the centrifuge controller GUI
(`GUI/centrifuge.py`): a Tk desktop client that reads status lines
`RPM: <float> | SP: <float> | STATE: <token...>` from a TCP device link,
maintains a bounded plotting history, and manages a debounced
slider-to-setpoint workflow with a 5-second revert timer.

Shallow embedding conventions:
* Lines and tokens are `List Char`; Python `str.strip`, `str.split`,
  `str.split(sep, 1)` and `str.startswith` are modelled directly below.
* Python floats are modelled as `ℚ`; `float(tok)` / `int(tok)` are
  modelled by `pyFloat` / `pyInt` on the decimal-literal subset
  (optional sign, digits, optional single fraction dot; exponent,
  `inf`/`nan` and underscore literals are outside the modelled subset).
* Python `round` is round-half-to-even (`pyRound`).
* Tk widgets are record fields holding the displayed value (`Option ℚ`
  for the numeric readouts, `none` standing for the initial `--.-`
  placeholder text; the `:.2f` rendering itself is presentation).
* Tk `after`/`after_cancel` timers are an explicit list of pending
  (timer id, fire time) pairs plus a fresh-id counter, so that "at most
  one revert timer outstanding" is a real property, not a typing
  artifact.  Only the revert timer is modelled; the 100 ms queue-polling
  self-rescheduling loop has no workflow state.
* The socket client is a record; `sendall` on a closed socket raises, a
  write on a live socket may fail for external reasons, which is the
  `netOk` environment flag.
-/

/-! ## Python string primitives on `List Char` -/

/-- Characters `str.strip()` / `str.split()` treat as whitespace. -/
def isPySpace (c : Char) : Bool :=
  c = ' ' || c = '\t' || c = '\n' || c = '\r' || c = '\x0b' || c = '\x0c'

/-- Drop leading Python whitespace (`str.lstrip()`). -/
def stripLeft (xs : List Char) : List Char := xs.dropWhile isPySpace

/-- Python `str.strip()`. -/
def pyStrip (xs : List Char) : List Char :=
  ((stripLeft xs).reverse.dropWhile isPySpace).reverse

/-- Python `str.split(sep)` for a one-character separator: split on every
occurrence, keeping empty segments. -/
def splitOnChar (sep : Char) : List Char → List (List Char)
  | [] => [[]]
  | c :: rest =>
    if c = sep then [] :: splitOnChar sep rest
    else
      match splitOnChar sep rest with
      | [] => [[c]]
      | h :: t => (c :: h) :: t

/-- Helper for `splitWS`: `acc` is the current token, reversed. -/
def splitWSAux : List Char → List Char → List (List Char)
  | acc, [] => if acc.isEmpty then [] else [acc.reverse]
  | acc, c :: rest =>
    if isPySpace c then
      if acc.isEmpty then splitWSAux [] rest
      else acc.reverse :: splitWSAux [] rest
    else splitWSAux (c :: acc) rest

/-- Python `str.split()` (no argument): split on whitespace runs,
discarding empty tokens. -/
def splitWS (xs : List Char) : List (List Char) := splitWSAux [] xs

/-- Python `str.split(sep, 1)` for a one-character separator, returning
`none` when the separator is absent (the `len(tokens) == 1` case). -/
def splitFirst (sep : Char) : List Char → Option (List Char × List Char)
  | [] => none
  | c :: rest =>
    if c = sep then some ([], rest)
    else (splitFirst sep rest).map (fun p => (c :: p.1, p.2))

/-! ## Python numeric literal parsing and rounding -/

/-- Value of a string of decimal digits. -/
def digitsToNat (xs : List Char) : Nat :=
  xs.foldl (fun a c => 10 * a + (c.toNat - 48)) 0

def allDigits (xs : List Char) : Bool := xs.all Char.isDigit

/-- Unsigned part of a Python float literal: digits with at most one
`.`, at least one digit overall (`"1."` and `".5"` are accepted, as in
CPython).  The value `ip.fp` is `digitsToNat (ip ++ fp) / 10 ^ |fp|`,
built with `mkRat` so that it evaluates by kernel reduction. -/
def pyFloatUnsigned (xs : List Char) : Option ℚ :=
  match splitFirst '.' xs with
  | none => if xs ≠ [] ∧ allDigits xs then some ((digitsToNat xs : ℚ)) else none
  | some (ip, fp) =>
    if (ip ≠ [] ∨ fp ≠ []) ∧ allDigits ip ∧ allDigits fp then
      some (mkRat ((digitsToNat (ip ++ fp) : Int)) (10 ^ fp.length))
    else none

/-- Model of Python `float(tok)` on the decimal-literal subset; strips
surrounding whitespace as CPython does, `none` models `ValueError`. -/
def pyFloat (xs : List Char) : Option ℚ :=
  match pyStrip xs with
  | '+' :: rest => pyFloatUnsigned rest
  | '-' :: rest => (pyFloatUnsigned rest).map (fun q => -q)
  | ys => pyFloatUnsigned ys

/-- Model of Python `int(tok)`: optional sign then decimal digits;
`none` models `ValueError`. -/
def pyInt (xs : List Char) : Option Int :=
  match pyStrip xs with
  | '+' :: rest => if rest ≠ [] ∧ allDigits rest then some ((digitsToNat rest : Int)) else none
  | '-' :: rest => if rest ≠ [] ∧ allDigits rest then some (-(digitsToNat rest : Int)) else none
  | ys => if ys ≠ [] ∧ allDigits ys then some ((digitsToNat ys : Int)) else none

/-- Python `round(x)`: round half to even.  Implemented on the reduced
`num/den` representation so it evaluates by kernel reduction: with
`n = ⌊q⌋` and remainder `r = num - n·den ∈ [0, den)`, the fractional
part `r/den` is compared against `1/2` by comparing `2r` with `den`. -/
def pyRound (q : ℚ) : Int :=
  let n : Int := q.num.ediv (q.den : Int)
  let r : Int := q.num - n * (q.den : Int)
  if 2 * r < (q.den : Int) then n
  else if (q.den : Int) < 2 * r then n + 1
  else if n % 2 = 0 then n else n + 1

/-! ## Device link (`HotplateClient`) -/

/-- Socket state: `active` after `socket.create_connection` succeeds,
`closed` after `close()` closed the file descriptor.  `HotplateClient.sock`
is `none` exactly when the Python attribute `self.sock` is `None`. -/
inductive SockState
  | active
  | closed
deriving DecidableEq

/-- Messages pushed onto the `status_queue` (their f-string text is
abstracted to constructors). -/
inductive StatusMsg
  | connecting
  | connected
  | connectionError
  | disconnected
  | notConnected
  | sentSetpoint (v : Int)
  | sendError
deriving DecidableEq

/-- `HotplateClient`: the background TCP client.  `sentValues` records
the setpoints successfully written by `sendall`; `stopRequested` is the
`stop_event` flag read by the read loop. -/
structure HotplateClient where
  port : Int
  sock : Option SockState
  sentValues : List Int
  statusMsgs : List StatusMsg
  stopRequested : Bool
deriving DecidableEq

/-- A freshly constructed and started client (`HotplateClient.__init__`
plus the `run()` prologue: `sock` is still `None` until
`create_connection` returns; the first status message is
`Connecting ...`). -/
def mkClient (p : Int) : HotplateClient :=
  { port := p, sock := none, sentValues := [], statusMsgs := [.connecting],
    stopRequested := false }

/-- `HotplateClient.send_setpoint`.  `netOk` models whether the
`sendall` system call succeeds on a live socket (external
nondeterminism).  `sendall` on a socket whose descriptor was closed by
`close()` raises `OSError`, which the `except` turns into a
`Send error` status message; only `self.sock is None` produces the
`Not connected.` message. -/
def send_setpoint (c : HotplateClient) (v : Int) (netOk : Bool) : HotplateClient :=
  match c.sock with
  | none => { c with statusMsgs := c.statusMsgs ++ [.notConnected] }
  | some .closed => { c with statusMsgs := c.statusMsgs ++ [.sendError] }
  | some .active =>
    if netOk then
      { c with sentValues := c.sentValues ++ [v],
               statusMsgs := c.statusMsgs ++ [.sentSetpoint v] }
    else { c with statusMsgs := c.statusMsgs ++ [.sendError] }

/-- `HotplateClient.close`: sets `stop_event` and closes the socket
objects; note that `self.sock` is *not* reset to `None`. -/
def clientClose (c : HotplateClient) : HotplateClient :=
  { c with stopRequested := true, sock := c.sock.map (fun _ => .closed) }

/-! ## GUI state (`CentrifugeGUI`) -/

/-- Modal dialogs raised synchronously by handlers
(`messagebox.showinfo/showerror/showwarning`). -/
inductive Dialog
  | alreadyConnected
  | invalidPort
  | notConnectedWarning
deriving DecidableEq

/-- The mutable state of `CentrifugeGUI`.  Tk widget contents are the
displayed values (`none` = the initial placeholder text).  Tk `after`
timers for the slider revert are modelled explicitly: `pendingTimers`
is the list of scheduled, not-yet-fired, not-yet-canceled timers as
`(id, fireTime)` pairs, `nextTimerId` supplies fresh ids, and
`slider_revert_after_id` is the Python attribute of the same name.
`now` is the Tk event-loop clock in milliseconds. -/
structure GuiState where
  client : Option HotplateClient
  current_sp_value : Option ℚ
  slider_revert_after_id : Option Nat
  user_adjusting_slider : Bool
  ignore_slider_change : Bool
  temp_history : List ℚ
  sp_history : List ℚ
  sample_indices : List Nat
  sample_count : Nat
  temp_var : Option ℚ
  sp_var : Option ℚ
  state_var : Option (List Char)
  sp_slider_var : Int
  sp_slider_label : Option ℚ
  connect_enabled : Bool
  disconnect_enabled : Bool
  set_enabled : Bool
  dialogs : List Dialog
  pendingTimers : List (Nat × Nat)
  nextTimerId : Nat
  now : Nat
deriving DecidableEq

/-- `CentrifugeGUI.__init__` (widget construction included: slider
starts at 25 and `update_slider_label` is called with it; Set and
Disconnect start disabled). -/
def initState : GuiState :=
  { client := none, current_sp_value := none, slider_revert_after_id := none,
    user_adjusting_slider := false, ignore_slider_change := false,
    temp_history := [], sp_history := [], sample_indices := [], sample_count := 0,
    temp_var := none, sp_var := none, state_var := none,
    sp_slider_var := 25, sp_slider_label := some 25,
    connect_enabled := true, disconnect_enabled := false, set_enabled := false,
    dialogs := [], pendingTimers := [], nextTimerId := 0, now := 0 }

/-- `self.max_points = 300`. -/
def maxPoints : Nat := 300

/-- Advance the Tk clock by `d` milliseconds (no timer fires by itself;
a due timer firing is the explicit `fireRevert` event). -/
def tick (g : GuiState) (d : Nat) : GuiState := { g with now := g.now + d }

/-! ## Slider / setpoint workflow handlers -/

/-- `CentrifugeGUI.on_slider_changed`: the Tk callback attached to the
scale.  A programmatic move (`ignore_slider_change`) returns at once.
A user move updates the label, marks the user as adjusting, cancels the
outstanding revert timer if any (`after_cancel`), and schedules a fresh
5000 ms revert timer (`after`). -/
def on_slider_changed (g : GuiState) : GuiState :=
  if g.ignore_slider_change then g
  else
    let g1 := { g with sp_slider_label := some ((g.sp_slider_var : ℚ)),
                       user_adjusting_slider := true }
    let g2 :=
      match g1.slider_revert_after_id with
      | none => g1
      | some i =>
        { g1 with pendingTimers := g1.pendingTimers.filter (fun p => p.1 != i) }
    { g2 with slider_revert_after_id := some g2.nextTimerId,
              pendingTimers := g2.pendingTimers ++ [(g2.nextTimerId, g2.now + 5000)],
              nextTimerId := g2.nextTimerId + 1 }

/-- A user-initiated slider move to position `v`: Tk stores the new
value in the variable and invokes the `command` callback. -/
def userMoveSlider (g : GuiState) (v : Int) : GuiState :=
  on_slider_changed { g with sp_slider_var := v }

/-- `CentrifugeGUI.revert_slider_to_current_sp`: the revert-timer
callback.  Clears the timer handle and the adjusting flag; when an
authoritative setpoint is known, moves the slider back to it (rounded)
under the `ignore_slider_change` guard — the Tk variable write invokes
`on_slider_changed`, which must be a no-op — then updates the label. -/
def revert_slider_to_current_sp (g : GuiState) : GuiState :=
  let g1 := { g with slider_revert_after_id := none, user_adjusting_slider := false }
  match g1.current_sp_value with
  | none => g1
  | some v =>
    let gA := { g1 with ignore_slider_change := true }
    let gB := on_slider_changed { gA with sp_slider_var := pyRound v }
    let gC := { gB with ignore_slider_change := false }
    { gC with sp_slider_label := some v }

/-- The Tk event "scheduled revert timer `i` fires": only possible for
a timer still pending; Tk removes it from the pending set and runs its
callback. -/
def fireRevert (g : GuiState) (i : Nat) : GuiState :=
  if (g.pendingTimers.filter (fun p => p.1 == i)).isEmpty then g
  else
    revert_slider_to_current_sp
      { g with pendingTimers := g.pendingTimers.filter (fun p => p.1 != i) }

/-- `CentrifugeGUI.on_set_sp`: the Set button.  Without a client it only
warns.  Otherwise it sends `int(round(slider))` (the slider variable is
an `IntVar`, so the rounding is the identity on its value), optimistically
records it as the authoritative setpoint and display value, clears the
adjusting flag, and cancels the revert timer if one is outstanding. -/
def on_set_sp (g : GuiState) (netOk : Bool) : GuiState :=
  match g.client with
  | none => { g with dialogs := g.dialogs ++ [.notConnectedWarning] }
  | some c =>
    let value : Int := pyRound ((g.sp_slider_var : ℚ))
    let c1 := send_setpoint c value netOk
    let g1 := { g with client := some c1,
                       current_sp_value := some ((value : ℚ)),
                       sp_var := some ((value : ℚ)),
                       sp_slider_label := some ((value : ℚ)),
                       user_adjusting_slider := false }
    match g1.slider_revert_after_id with
    | none => g1
    | some i =>
      { g1 with pendingTimers := g1.pendingTimers.filter (fun p => p.1 != i),
                slider_revert_after_id := none }

/-! ## Connection handlers -/

/-- `CentrifugeGUI.on_connect`: rejects a second connection, validates
the port entry with `int(port_str)` (surfacing `Invalid port` on
`ValueError`), and otherwise creates and starts a `HotplateClient` —
i.e. a connection attempt begins — and flips the button states. -/
def on_connect (g : GuiState) (portEntry : List Char) : GuiState :=
  match g.client with
  | some _ => { g with dialogs := g.dialogs ++ [.alreadyConnected] }
  | none =>
    match pyInt (pyStrip portEntry) with
    | none => { g with dialogs := g.dialogs ++ [.invalidPort] }
    | some p =>
      { g with client := some (mkClient p),
               connect_enabled := false, disconnect_enabled := true,
               set_enabled := true }

/-- `CentrifugeGUI.on_disconnect`. -/
def on_disconnect (g : GuiState) : GuiState :=
  { g with client := none,
           connect_enabled := true, disconnect_enabled := false,
           set_enabled := false }

/-! ## Inbound line parsing (`CentrifugeGUI._handle_device_line`) -/

/-- A successfully parsed status line (the spec's *Status Reading*). -/
structure Reading where
  rpm : ℚ
  setpoint : ℚ
  stateCode : Option Int
  stateLabel : List Char
deriving DecidableEq

/-- `state_part.split(":", 1)` and the
`state_tokens[1].strip() if len(state_tokens) > 1 else state_part`
selection of the state label. -/
def stateLabelOf (p2 : List Char) : List Char :=
  match splitFirst ':' p2 with
  | some pr => pyStrip pr.2
  | none => p2

/-- The pure parsing skeleton of `_handle_device_line`: the reading the
handler accepts, `none` at exactly the points where the handler drops
the line (prefix test, segment count, `IndexError`/`ValueError` on the
RPM and SP tokens, `IndexError` on an empty state label). -/
def parseReading (line : List Char) : Option Reading :=
  let l := pyStrip line
  if ("RPM:".data).isPrefixOf l then
    match (splitOnChar '|' l).map pyStrip with
    | p0 :: p1 :: p2 :: _ =>
      match ((splitWS p0)[1]?).bind pyFloat with
      | none => none
      | some rpm =>
        match ((splitWS p1)[1]?).bind pyFloat with
        | none => none
        | some sp =>
          let lbl := stateLabelOf p2
          match (splitWS lbl)[0]? with
          | none => none
          | some tok => some ⟨rpm, sp, pyInt tok, lbl⟩
    | _ => none
  else none

/-- The display mutations `_handle_device_line` performs once both
floats have parsed, in source order: RPM readout, SP readout and
authoritative setpoint, slider synchronization when the user is not
adjusting (under the `ignore_slider_change` guard, with the Tk variable
write invoking `on_slider_changed`), state label readout. -/
def applyDisplays (g : GuiState) (r : Reading) : GuiState :=
  let g1 := { g with temp_var := some r.rpm }
  let g2 := { g1 with sp_var := some r.setpoint, current_sp_value := some r.setpoint }
  let g3 :=
    if !g2.user_adjusting_slider && g2.current_sp_value.isSome then
      let gA := { g2 with ignore_slider_change := true }
      let gB := on_slider_changed { gA with sp_slider_var := pyRound r.setpoint }
      let gC := { gB with ignore_slider_change := false }
      { gC with sp_slider_label := some r.setpoint }
    else g2
  { g3 with state_var := some r.stateLabel }

/-- The Set-button gating keyed on the state code (only with an active
client). -/
def applyGating (g : GuiState) (code : Option Int) : GuiState :=
  match g.client with
  | none => g
  | some _ =>
    if code = some 1 then { g with set_enabled := false }
    else if code = some 0 then { g with set_enabled := true }
    else g

/-- History append and FIFO eviction past `max_points`. -/
def applyHistory (g : GuiState) (rpm sp : ℚ) : GuiState :=
  let g6 := { g with sample_count := g.sample_count + 1 }
  let g7 := { g6 with sample_indices := g6.sample_indices ++ [g6.sample_count],
                      temp_history := g6.temp_history ++ [rpm],
                      sp_history := g6.sp_history ++ [sp] }
  if g7.sample_indices.length > maxPoints then
    { g7 with sample_indices := g7.sample_indices.tail,
              temp_history := g7.temp_history.tail,
              sp_history := g7.sp_history.tail }
  else g7

/-- The full state mutation `_handle_device_line` performs after all its
parsing steps succeed, in source order. -/
def applyReading (g : GuiState) (r : Reading) : GuiState :=
  applyHistory (applyGating (applyDisplays g r) r.stateCode) r.rpm r.setpoint

/-- `CentrifugeGUI._handle_device_line`, with the `try/except` semantics
of CPython: mutations made before a failing step persist, the exception
itself is swallowed.  Both the `IndexError` of a missing token and the
`ValueError` of a failed numeric parse abort to the outer `except`,
except for the state-code `int()` whose `ValueError` is caught locally
(but whose `IndexError` on an empty label is not). -/
def handle_device_line (g : GuiState) (line : List Char) : GuiState :=
  let l := pyStrip line
  if ("RPM:".data).isPrefixOf l then
    match (splitOnChar '|' l).map pyStrip with
    | p0 :: p1 :: p2 :: _ =>
      match ((splitWS p0)[1]?).bind pyFloat with
      | none => g
      | some rpm =>
        let g1 := { g with temp_var := some rpm }
        match ((splitWS p1)[1]?).bind pyFloat with
        | none => g1
        | some sp =>
          let g2 := { g1 with sp_var := some sp, current_sp_value := some sp }
          let g3 :=
            if !g2.user_adjusting_slider && g2.current_sp_value.isSome then
              let gA := { g2 with ignore_slider_change := true }
              let gB := on_slider_changed { gA with sp_slider_var := pyRound sp }
              let gC := { gB with ignore_slider_change := false }
              { gC with sp_slider_label := some sp }
            else g2
          let lbl := stateLabelOf p2
          let g4 := { g3 with state_var := some lbl }
          match (splitWS lbl)[0]? with
          | none => g4
          | some tok =>
            let stInt := pyInt tok
            let g5 :=
              match g4.client with
              | none => g4
              | some _ =>
                if stInt = some 1 then { g4 with set_enabled := false }
                else if stInt = some 0 then { g4 with set_enabled := true }
                else g4
            let g6 := { g5 with sample_count := g5.sample_count + 1 }
            let g7 := { g6 with sample_indices := g6.sample_indices ++ [g6.sample_count],
                                temp_history := g6.temp_history ++ [rpm],
                                sp_history := g6.sp_history ++ [sp] }
            if g7.sample_indices.length > maxPoints then
              { g7 with sample_indices := g7.sample_indices.tail,
                        temp_history := g7.temp_history.tail,
                        sp_history := g7.sp_history.tail }
            else g7
    | _ => g
  else g

/-! ## Derived state and helper definitions used by the theorems -/

/-- A wire line `RPM: <r> | SP: <s) | STATE: <st>` assembled from the
RPM token `r`, the SP token `s` and the state remainder `st`. -/
def mkLine (r s st : List Char) : List Char :=
  "RPM: ".data ++ r ++ " | SP: ".data ++ s ++ " | STATE: ".data ++ st

/-- A fixed well-formed status line used to exercise the history buffer. -/
def sampleLine : List Char := "RPM: 1.0 | SP: 2.0 | STATE: 0".data

/-- Feeding `n` copies of a line through the handler, from a fresh GUI. -/
def iterHandle (line : List Char) : Nat → GuiState
  | 0 => initState
  | n + 1 => handle_device_line (iterHandle line n) line

/-- `[a, a+1, ..., a+n-1]`. -/
def idxFrom (a n : Nat) : List Nat := (List.range n).map (fun i => a + i)

/-- The history-buffer invariant: the three parallel plot lists have
equal length, at most `max_points`. -/
def histInv (g : GuiState) : Prop :=
  g.sample_indices.length ≤ maxPoints ∧
  g.temp_history.length = g.sample_indices.length ∧
  g.sp_history.length = g.sample_indices.length

/-- The timer bookkeeping invariant of the GUI: `slider_revert_after_id`
tracks the single outstanding revert timer — when it is `none` no revert
timer is pending, and when it is `some i` exactly one timer (with id
`i`, already allocated) is pending. Holds initially and is preserved by
every handler. -/
def timerInv (g : GuiState) : Prop :=
  match g.slider_revert_after_id with
  | none => g.pendingTimers = []
  | some i => g.pendingTimers.map Prod.fst = [i] ∧ i < g.nextTimerId

/-- A GUI mid-adjustment with an active connection, used to instantiate
the workflow theorems. -/
def adjustingState : GuiState :=
  { initState with
    client := some { mkClient 5000 with sock := some SockState.active },
    user_adjusting_slider := true,
    slider_revert_after_id := some 0,
    pendingTimers := [(0, 5000)], nextTimerId := 1,
    sp_slider_var := 42 }

/-- A client whose connection attempt has succeeded. -/
def liveClient : HotplateClient :=
  { mkClient 5000 with
    sock := some SockState.active,
    statusMsgs := [StatusMsg.connecting, StatusMsg.connected] }

/-! ## Sanity checks on concrete inputs -/

example : pyFloat "23.45".data = some (mkRat 2345 100) := by decide
example : pyFloat " 50.0 ".data = some (50 : ℚ) := by decide
example : pyFloat "x".data = none := by decide
example : pyFloat "1.2.3".data = none := by decide
example : pyFloat "+1.".data = some (1 : ℚ) := by decide
example : pyFloat "-.5".data = some (mkRat (-1) 2) := by decide
example : pyInt "1".data = some 1 := by decide
example : pyInt "-7".data = some (-7) := by decide
example : pyInt "HEATING".data = none := by decide
example : pyRound (mkRat 5 2) = 2 := by decide
example : pyRound (mkRat 7 2) = 4 := by decide
example : pyRound (mkRat 49 10) = 5 := by decide
example : pyRound (mkRat (-5) 2) = -2 := by decide
example : pyRound (50 : ℚ) = 50 := by decide
example :
    parseReading "RPM: 23.45 | SP: 50.0 | STATE: 1".data =
      some ⟨mkRat 2345 100, 50, some 1, "1".data⟩ := by decide
example :
    parseReading "RPM: 23.45 | SP: 50.0 | STATE: HEATING".data =
      some ⟨mkRat 2345 100, 50, none, "HEATING".data⟩ := by decide
example :
    parseReading "RPM: 1.0 | SP: 2.0 | STATE: 2 spinning up".data =
      some ⟨1, 2, some 2, "2 spinning up".data⟩ := by decide
example : parseReading "garbage".data = none := by decide
example : parseReading "RPM: 1.0 | SP: 2.0".data = none := by decide
example : parseReading "RPM: x | SP: 2.0 | STATE: 0".data = none := by decide
example : parseReading "RPM: 1.0 | SP: x | STATE: 0".data = none := by decide
example : parseReading "RPM: 1.0 | SP: 2.0 | STATE:".data = none := by decide

/-! ## Bridging lemmas: the handler in terms of the parse outcome -/

set_option maxHeartbeats 2000000 in
theorem handle_of_parse_some (g : GuiState) (line : List Char) (r : Reading)
    (h : parseReading line = some r) :
    handle_device_line g line = applyReading g r := by
  unfold parseReading at h
  unfold handle_device_line applyReading applyDisplays applyGating applyHistory
  by_cases hpre : ("RPM:".data).isPrefixOf (pyStrip line) = true
  · simp only [hpre, if_true] at h ⊢
    rcases hsegs : (splitOnChar '|' (pyStrip line)).map pyStrip with
      _ | ⟨p0, _ | ⟨p1, _ | ⟨p2, rest⟩⟩⟩ <;> simp only [hsegs] at h ⊢
    · exact absurd h (by simp)
    · exact absurd h (by simp)
    · exact absurd h (by simp)
    · rcases hrpm : ((splitWS p0)[1]?).bind pyFloat with _ | rpm <;>
        simp only [hrpm] at h ⊢
      · exact absurd h (by simp)
      · rcases hsp : ((splitWS p1)[1]?).bind pyFloat with _ | sp <;>
          simp only [hsp] at h ⊢
        · exact absurd h (by simp)
        · rcases htok : (splitWS (stateLabelOf p2))[0]? with _ | tok <;>
            simp only [htok] at h ⊢
          · exact absurd h (by simp)
          · simp only [Option.some.injEq] at h
            subst h
            rfl
  · simp only [hpre, if_false] at h ⊢
    exact absurd h (by simp)

theorem handle_of_no_rpm_tag (g : GuiState) (line : List Char)
    (h : ¬ ("RPM:".data).isPrefixOf (pyStrip line) = true) :
    handle_device_line g line = g := by
  unfold handle_device_line
  rw [if_neg h]

theorem handle_of_few_segments (g : GuiState) (line : List Char)
    (h : ((splitOnChar '|' (pyStrip line)).map pyStrip).length < 3) :
    handle_device_line g line = g := by
  unfold handle_device_line
  by_cases hpre : ("RPM:".data).isPrefixOf (pyStrip line) = true
  · rw [if_pos hpre]
    rcases hsegs : (splitOnChar '|' (pyStrip line)).map pyStrip with
      _ | ⟨p0, _ | ⟨p1, _ | ⟨p2, rest⟩⟩⟩ <;>
        simp only [hsegs, List.length_cons, List.length_nil] at h ⊢ <;> try rfl
    omega
  · rw [if_neg hpre]

theorem handle_of_bad_rpm (g : GuiState) (line : List Char)
    (p0 p1 p2 : List Char) (rest : List (List Char))
    (hsegs : (splitOnChar '|' (pyStrip line)).map pyStrip = p0 :: p1 :: p2 :: rest)
    (h : ((splitWS p0)[1]?).bind pyFloat = none) :
    handle_device_line g line = g := by
  unfold handle_device_line
  by_cases hpre : ("RPM:".data).isPrefixOf (pyStrip line) = true
  · rw [if_pos hpre]
    simp only [hsegs, h]
  · rw [if_neg hpre]

theorem handle_of_bad_sp (g : GuiState) (line : List Char)
    (p0 p1 p2 : List Char) (rest : List (List Char)) (rpm : ℚ)
    (hpre : ("RPM:".data).isPrefixOf (pyStrip line) = true)
    (hsegs : (splitOnChar '|' (pyStrip line)).map pyStrip = p0 :: p1 :: p2 :: rest)
    (hrpm : ((splitWS p0)[1]?).bind pyFloat = some rpm)
    (h : ((splitWS p1)[1]?).bind pyFloat = none) :
    handle_device_line g line = { g with temp_var := some rpm } := by
  unfold handle_device_line
  rw [if_pos hpre]
  simp only [hsegs, hrpm, h]

theorem handle_of_empty_state (g : GuiState) (line : List Char)
    (p0 p1 p2 : List Char) (rest : List (List Char)) (rpm sp : ℚ)
    (hpre : ("RPM:".data).isPrefixOf (pyStrip line) = true)
    (hsegs : (splitOnChar '|' (pyStrip line)).map pyStrip = p0 :: p1 :: p2 :: rest)
    (hrpm : ((splitWS p0)[1]?).bind pyFloat = some rpm)
    (hsp : ((splitWS p1)[1]?).bind pyFloat = some sp)
    (h : (splitWS (stateLabelOf p2))[0]? = none) :
    handle_device_line g line =
      (let g2 := { g with temp_var := some rpm, sp_var := some sp,
                          current_sp_value := some sp }
       let g3 :=
         if !g2.user_adjusting_slider && g2.current_sp_value.isSome then
           let gA := { g2 with ignore_slider_change := true }
           let gB := on_slider_changed { gA with sp_slider_var := pyRound sp }
           let gC := { gB with ignore_slider_change := false }
           { gC with sp_slider_label := some sp }
         else g2
       { g3 with state_var := some (stateLabelOf p2) }) := by
  unfold handle_device_line
  rw [if_pos hpre]
  simp only [hsegs, hrpm, hsp, h]

/-! ## String lemmas for the wire-format theorem -/

theorem stripLeft_cons_of_neg (c : Char) (xs : List Char) (h : isPySpace c = false) :
    stripLeft (c :: xs) = c :: xs := by
  unfold stripLeft
  rw [List.dropWhile_cons, if_neg (by simp [h])]

theorem stripLeft_space_run (ws ys : List Char)
    (h : ∀ c ∈ ws, isPySpace c = true) :
    stripLeft (ws ++ ys) = stripLeft ys := by
  induction ws with
  | nil => rfl
  | cons c t ih =>
    have hc : isPySpace c = true := h c (by simp)
    show stripLeft (c :: (t ++ ys)) = stripLeft ys
    unfold stripLeft
    rw [List.dropWhile_cons, if_pos (by simp [hc])]
    exact ih (fun d hd => h d (by simp [hd]))

theorem head_not_space (c : Char) (t : List Char)
    (h : stripLeft (c :: t) = c :: t) : isPySpace c = false := by
  have h0 := List.dropWhile_eq_self_iff.mp h (by simp)
  simpa using h0

theorem stripLeft_append_of (xs ys : List Char)
    (h : stripLeft xs = xs) (h0 : xs ≠ []) :
    stripLeft (xs ++ ys) = xs ++ ys := by
  cases xs with
  | nil => exact absurd rfl h0
  | cons c t =>
    have hc := head_not_space c t h
    show stripLeft (c :: (t ++ ys)) = c :: (t ++ ys)
    exact stripLeft_cons_of_neg c (t ++ ys) hc

theorem stripLeft_of_noWS (xs : List Char)
    (h : ∀ c ∈ xs, isPySpace c = false) : stripLeft xs = xs := by
  cases xs with
  | nil => rfl
  | cons c t => exact stripLeft_cons_of_neg c t (h c (by simp))

theorem pyStrip_eq_self (xs : List Char)
    (h1 : stripLeft xs = xs) (h2 : stripLeft xs.reverse = xs.reverse) :
    pyStrip xs = xs := by
  unfold pyStrip
  rw [h1]
  have hdef : xs.reverse.dropWhile isPySpace = stripLeft xs.reverse := rfl
  rw [hdef, h2, List.reverse_reverse]

theorem pyStrip_sandwich (ws core ws' : List Char)
    (hws : ∀ c ∈ ws, isPySpace c = true) (hws' : ∀ c ∈ ws', isPySpace c = true)
    (hcL : stripLeft core = core) (hcR : stripLeft core.reverse = core.reverse)
    (h0 : core ≠ []) :
    pyStrip (ws ++ core ++ ws') = core := by
  unfold pyStrip
  rw [List.append_assoc, stripLeft_space_run ws _ hws,
      stripLeft_append_of core ws' hcL h0, List.reverse_append]
  have hdef : (ws'.reverse ++ core.reverse).dropWhile isPySpace
      = stripLeft (ws'.reverse ++ core.reverse) := rfl
  rw [hdef, stripLeft_space_run _ _ (fun c hc => hws' c (List.mem_reverse.mp hc)),
      hcR, List.reverse_reverse]

theorem splitOnChar_of_not_mem (sep : Char) (xs : List Char) (h : sep ∉ xs) :
    splitOnChar sep xs = [xs] := by
  induction xs with
  | nil => rfl
  | cons c t ih =>
    have hc : ¬ c = sep := fun e => h (by simp [e])
    have ht : sep ∉ t := fun m => h (by simp [m])
    unfold splitOnChar
    rw [if_neg hc, ih ht]

theorem splitOnChar_append (sep : Char) (xs ys : List Char) (h : sep ∉ xs) :
    splitOnChar sep (xs ++ sep :: ys) = xs :: splitOnChar sep ys := by
  induction xs with
  | nil =>
    show splitOnChar sep (sep :: ys) = [] :: splitOnChar sep ys
    conv_lhs => rw [splitOnChar]
    rw [if_pos rfl]
  | cons c t ih =>
    have hc : ¬ c = sep := fun e => h (by simp [e])
    have ht : sep ∉ t := fun m => h (by simp [m])
    show splitOnChar sep (c :: (t ++ sep :: ys)) = (c :: t) :: splitOnChar sep ys
    conv_lhs => rw [splitOnChar]
    rw [if_neg hc, ih ht]

theorem splitFirst_append (sep : Char) (xs ys : List Char) (h : sep ∉ xs) :
    splitFirst sep (xs ++ sep :: ys) = some (xs, ys) := by
  induction xs with
  | nil =>
    show splitFirst sep (sep :: ys) = some ([], ys)
    unfold splitFirst
    rw [if_pos rfl]
  | cons c t ih =>
    have hc : ¬ c = sep := fun e => h (by simp [e])
    have ht : sep ∉ t := fun m => h (by simp [m])
    show splitFirst sep (c :: (t ++ sep :: ys)) = some (c :: t, ys)
    unfold splitFirst
    rw [if_neg hc, ih ht]
    rfl

theorem splitWSAux_token (tok : List Char) (h : ∀ c ∈ tok, isPySpace c = false) :
    ∀ acc rest, splitWSAux acc (tok ++ rest) = splitWSAux (tok.reverse ++ acc) rest := by
  induction tok with
  | nil => intro acc rest; rfl
  | cons c t ih =>
    intro acc rest
    have hc : isPySpace c = false := h c (by simp)
    have ht : ∀ d ∈ t, isPySpace d = false := fun d hd => h d (by simp [hd])
    show splitWSAux acc (c :: (t ++ rest)) = splitWSAux ((c :: t).reverse ++ acc) rest
    conv_lhs => rw [splitWSAux]
    rw [if_neg (by simp [hc]), ih ht (c :: acc) rest]
    congr 1
    simp

theorem splitWSAux_space (acc : List Char) (c : Char) (rest : List Char)
    (hc : isPySpace c = true) (hacc : acc ≠ []) :
    splitWSAux acc (c :: rest) = acc.reverse :: splitWS rest := by
  conv_lhs => rw [splitWSAux]
  rw [if_pos (by simp [hc]), if_neg (by simpa using hacc)]
  rfl

theorem splitWSAux_nil (acc : List Char) (hacc : acc ≠ []) :
    splitWSAux acc [] = [acc.reverse] := by
  conv_lhs => rw [splitWSAux]
  rw [if_neg (by simpa using hacc)]

theorem splitWS_of_noWS (tok : List Char)
    (h : ∀ c ∈ tok, isPySpace c = false) (h0 : tok ≠ []) :
    splitWS tok = [tok] := by
  have hrev : tok.reverse ≠ [] := by simpa using h0
  show splitWSAux [] tok = [tok]
  have htok := splitWSAux_token tok h [] []
  rw [List.append_nil, List.append_nil] at htok
  rw [htok, splitWSAux_nil _ hrev, List.reverse_reverse]

theorem splitWS_token_space (tok : List Char) (c : Char) (rest : List Char)
    (h : ∀ d ∈ tok, isPySpace d = false) (h0 : tok ≠ []) (hc : isPySpace c = true) :
    splitWS (tok ++ c :: rest) = tok :: splitWS rest := by
  have hrev : tok.reverse ≠ [] := by simpa using h0
  show splitWSAux [] (tok ++ c :: rest) = tok :: splitWS rest
  rw [splitWSAux_token tok h [] (c :: rest), List.append_nil,
      splitWSAux_space _ c rest hc hrev, List.reverse_reverse]

theorem splitWSAux_cons_exists (rest : List Char) :
    ∀ acc, acc ≠ [] → ∃ h t, splitWSAux acc rest = h :: t := by
  induction rest with
  | nil =>
    intro acc hacc
    exact ⟨acc.reverse, [], splitWSAux_nil acc hacc⟩
  | cons c r ih =>
    intro acc hacc
    by_cases hc : isPySpace c = true
    · exact ⟨acc.reverse, splitWS r, splitWSAux_space acc c r hc hacc⟩
    · have step : splitWSAux acc (c :: r) = splitWSAux (c :: acc) r := by
        conv_lhs => rw [splitWSAux]
        rw [if_neg (by simpa using hc)]
      rw [step]
      exact ih (c :: acc) (by simp)

theorem splitWS_cons_exists (xs : List Char)
    (h1 : stripLeft xs = xs) (h0 : xs ≠ []) :
    ∃ h t, splitWS xs = h :: t := by
  cases xs with
  | nil => exact absurd rfl h0
  | cons c t =>
    have hc := head_not_space c t h1
    unfold splitWS
    have step : splitWSAux [] (c :: t) = splitWSAux [c] t := by
      conv_lhs => rw [splitWSAux]
      rw [if_neg (by simp [hc])]
    rw [step]
    exact splitWSAux_cons_exists t [c] (by simp)

theorem isPrefixOf_append_self (xs zs : List Char) :
    xs.isPrefixOf (xs ++ zs) = true := by
  induction xs with
  | nil => simp
  | cons c t ih => simpa [List.isPrefixOf] using ih

/-! ## The wire-format line and its parse -/

/-- C1: for every inbound line of the form
`RPM: <float> | SP: <float> | STATE: <token...>` — i.e. `mkLine r s st`
with `r`, `s` whitespace- and pipe-free float literals and `st` a
nonempty, trimmed, pipe-free remainder — parsing produces a Status
Reading whose `rpm` is the value of the literal after `RPM:`, whose
`setpoint` is the value of the literal after `SP:`, whose `stateLabel`
is the trimmed remainder of the STATE segment after its first `:`
(that is, `st` itself), and whose `stateCode` is the first
whitespace-delimited token of the `stateLabel` parsed as an integer
when that parse succeeds, and absent otherwise. -/
theorem C1_wire_format_parsing (r s st : List Char) (rv sv : ℚ)
    (hrW : ∀ c ∈ r, isPySpace c = false) (hrP : '|' ∉ r) (hr0 : r ≠ [])
    (hrv : pyFloat r = some rv)
    (hsW : ∀ c ∈ s, isPySpace c = false) (hsP : '|' ∉ s) (hs0 : s ≠ [])
    (hsv : pyFloat s = some sv)
    (hstP : '|' ∉ st) (hst0 : st ≠ [])
    (hstL : stripLeft st = st) (hstR : stripLeft st.reverse = st.reverse) :
    parseReading (mkLine r s st) =
      some { rpm := rv, setpoint := sv,
             stateCode := pyInt ((splitWS st).headD []),
             stateLabel := st } := by
  have hrRev0 : r.reverse ≠ [] := by simpa using hr0
  have hsRev0 : s.reverse ≠ [] := by simpa using hs0
  have hstRev0 : st.reverse ≠ [] := by simpa using hst0
  have hrRevW : ∀ c ∈ r.reverse, isPySpace c = false :=
    fun c hc => hrW c (List.mem_reverse.mp hc)
  have hsRevW : ∀ c ∈ s.reverse, isPySpace c = false :=
    fun c hc => hsW c (List.mem_reverse.mp hc)
  -- the line, re-associated around the two pipe separators
  have hassoc : mkLine r s st
      = (['R','P','M',':',' '] ++ r ++ [' ']) ++ '|' ::
        (([' ','S','P',':',' '] ++ s ++ [' ']) ++ '|' ::
         ([' ','S','T','A','T','E',':',' '] ++ st)) := by
    simp [mkLine, List.append_assoc]
  -- the line is already stripped
  have hlineL : stripLeft (mkLine r s st) = mkLine r s st := by
    have h1 : mkLine r s st
        = ['R','P','M',':',' '] ++
          (r ++ ' ' :: '|' ::
           (([' ','S','P',':',' '] ++ s ++ [' ']) ++ '|' ::
            ([' ','S','T','A','T','E',':',' '] ++ st))) := by
      rw [hassoc]; simp [List.append_assoc]
    rw [h1]
    exact stripLeft_append_of _ _ (by decide) (by decide)
  have hlineR : stripLeft (mkLine r s st).reverse = (mkLine r s st).reverse := by
    have h1 : mkLine r s st
        = ((['R','P','M',':',' '] ++ r ++ [' ']) ++ '|' ::
           (([' ','S','P',':',' '] ++ s ++ [' ']) ++ '|' ::
            [' ','S','T','A','T','E',':',' '])) ++ st := by
      rw [hassoc]; simp [List.append_assoc]
    rw [h1, List.reverse_append]
    exact stripLeft_append_of _ _ hstR hstRev0
  have hps : pyStrip (mkLine r s st) = mkLine r s st :=
    pyStrip_eq_self _ hlineL hlineR
  -- the prefix test passes
  have hpre : ("RPM:".data).isPrefixOf (mkLine r s st) = true := by
    have h1 : mkLine r s st
        = "RPM:".data ++
          (' ' :: (r ++ ' ' :: '|' ::
           (([' ','S','P',':',' '] ++ s ++ [' ']) ++ '|' ::
            ([' ','S','T','A','T','E',':',' '] ++ st)))) := by
      rw [hassoc]; simp [List.append_assoc]
    rw [h1]
    exact isPrefixOf_append_self _ _
  -- pipe-freeness of the three raw segments
  have hA : ('|' : Char) ∉ ['R','P','M',':',' '] ++ r ++ [' '] := by
    simp only [List.mem_append, List.mem_cons, List.not_mem_nil, or_false]
    push_neg
    exact ⟨⟨by decide, hrP⟩, by decide⟩
  have hB : ('|' : Char) ∉ [' ','S','P',':',' '] ++ s ++ [' '] := by
    simp only [List.mem_append, List.mem_cons, List.not_mem_nil, or_false]
    push_neg
    exact ⟨⟨by decide, hsP⟩, by decide⟩
  have hC : ('|' : Char) ∉ [' ','S','T','A','T','E',':',' '] ++ st := by
    simp only [List.mem_append, List.mem_cons, List.not_mem_nil, or_false]
    push_neg
    exact ⟨by decide, hstP⟩
  -- splitting on the pipes
  have hsplit : splitOnChar '|' (mkLine r s st)
      = [['R','P','M',':',' '] ++ r ++ [' '],
         [' ','S','P',':',' '] ++ s ++ [' '],
         [' ','S','T','A','T','E',':',' '] ++ st] := by
    rw [hassoc, splitOnChar_append _ _ _ hA, splitOnChar_append _ _ _ hB,
        splitOnChar_of_not_mem _ _ hC]
  -- stripping the three segments
  have hstripA : pyStrip (['R','P','M',':',' '] ++ r ++ [' '])
      = ['R','P','M',':',' '] ++ r := by
    have hcL : stripLeft (['R','P','M',':',' '] ++ r) = ['R','P','M',':',' '] ++ r :=
      stripLeft_append_of _ _ (by decide) (by decide)
    have hcR : stripLeft ((['R','P','M',':',' '] ++ r).reverse)
        = (['R','P','M',':',' '] ++ r).reverse := by
      rw [List.reverse_append]
      exact stripLeft_append_of _ _ (stripLeft_of_noWS _ hrRevW) hrRev0
    have h := pyStrip_sandwich [] (['R','P','M',':',' '] ++ r) [' ']
      (by decide) (by decide) hcL hcR (by simp)
    simpa using h
  have hstripB : pyStrip ([' ','S','P',':',' '] ++ s ++ [' '])
      = ['S','P',':',' '] ++ s := by
    have hcL : stripLeft (['S','P',':',' '] ++ s) = ['S','P',':',' '] ++ s :=
      stripLeft_append_of _ _ (by decide) (by decide)
    have hcR : stripLeft ((['S','P',':',' '] ++ s).reverse)
        = (['S','P',':',' '] ++ s).reverse := by
      rw [List.reverse_append]
      exact stripLeft_append_of _ _ (stripLeft_of_noWS _ hsRevW) hsRev0
    have h := pyStrip_sandwich [' '] (['S','P',':',' '] ++ s) [' ']
      (by decide) (by decide) hcL hcR (by simp)
    simpa [List.append_assoc] using h
  have hstripC : pyStrip ([' ','S','T','A','T','E',':',' '] ++ st)
      = ['S','T','A','T','E',':',' '] ++ st := by
    have hcL : stripLeft (['S','T','A','T','E',':',' '] ++ st)
        = ['S','T','A','T','E',':',' '] ++ st :=
      stripLeft_append_of _ _ (by decide) (by decide)
    have hcR : stripLeft ((['S','T','A','T','E',':',' '] ++ st).reverse)
        = (['S','T','A','T','E',':',' '] ++ st).reverse := by
      rw [List.reverse_append]
      exact stripLeft_append_of _ _ hstR hstRev0
    have h := pyStrip_sandwich [' '] (['S','T','A','T','E',':',' '] ++ st) []
      (by decide) (by decide) hcL hcR (by simp)
    simpa [List.append_assoc] using h
  have hsegs : (splitOnChar '|' (mkLine r s st)).map pyStrip
      = [['R','P','M',':',' '] ++ r,
         ['S','P',':',' '] ++ s,
         ['S','T','A','T','E',':',' '] ++ st] := by
    rw [hsplit]
    simp only [List.map_cons, List.map_nil, hstripA, hstripB, hstripC]
  -- whitespace-splitting the RPM and SP segments
  have hsw0 : splitWS (['R','P','M',':',' '] ++ r) = [['R','P','M',':'], r] := by
    have h := splitWS_token_space ['R','P','M',':'] ' ' r (by decide) (by decide) (by decide)
    rw [splitWS_of_noWS r hrW hr0] at h
    simpa [List.append_assoc] using h
  have hsw1 : splitWS (['S','P',':',' '] ++ s) = [['S','P',':'], s] := by
    have h := splitWS_token_space ['S','P',':'] ' ' s (by decide) (by decide) (by decide)
    rw [splitWS_of_noWS s hsW hs0] at h
    simpa [List.append_assoc] using h
  have hbind0 : ((splitWS (['R','P','M',':',' '] ++ r))[1]?).bind pyFloat = some rv := by
    rw [hsw0]
    simpa using hrv
  have hbind1 : ((splitWS (['S','P',':',' '] ++ s))[1]?).bind pyFloat = some sv := by
    rw [hsw1]
    simpa using hsv
  -- the state label
  have hlbl : stateLabelOf (['S','T','A','T','E',':',' '] ++ st) = st := by
    have hsf : splitFirst ':' (['S','T','A','T','E',':',' '] ++ st)
        = some (['S','T','A','T','E'], ' ' :: st) := by
      have h := splitFirst_append ':' ['S','T','A','T','E'] (' ' :: st) (by decide)
      simpa [List.append_assoc] using h
    have hstrip : pyStrip (' ' :: st) = st := by
      have h := pyStrip_sandwich [' '] st [] (by decide) (by decide) hstL hstR hst0
      simpa using h
    unfold stateLabelOf
    rw [hsf]
    simpa using hstrip
  obtain ⟨tok, rest', hswst⟩ := splitWS_cons_exists st hstL hst0
  have hget0 : (splitWS st)[0]? = some tok := by rw [hswst]; simp
  have hheadD : (splitWS st).headD [] = tok := by rw [hswst]; rfl
  -- assemble
  unfold parseReading
  rw [hps, if_pos hpre, hsegs]
  simp only [hbind0, hbind1, hlbl, hget0, hheadD]

theorem C1_wire_format_parsing_witness :
    parseReading (mkLine "23.45".data "50.0".data "1 spinning".data) =
      some { rpm := mkRat 2345 100, setpoint := 50, stateCode := some 1,
             stateLabel := "1 spinning".data } := by
  have h := C1_wire_format_parsing "23.45".data "50.0".data "1 spinning".data
    (mkRat 2345 100) 50
    (by decide) (by decide) (by decide) (by decide)
    (by decide) (by decide) (by decide) (by decide)
    (by decide) (by decide) (by decide) (by decide)
  rw [show pyInt ((splitWS "1 spinning".data).headD []) = some 1 from by decide] at h
  exact h

theorem parse_none_of_no_rpm_tag (line : List Char)
    (h : ¬ ("RPM:".data).isPrefixOf (pyStrip line) = true) :
    parseReading line = none := by
  unfold parseReading
  rw [if_neg h]

theorem parse_none_of_few_segments (line : List Char)
    (h : ((splitOnChar '|' (pyStrip line)).map pyStrip).length < 3) :
    parseReading line = none := by
  unfold parseReading
  by_cases hpre : ("RPM:".data).isPrefixOf (pyStrip line) = true
  · rw [if_pos hpre]
    rcases hsegs : (splitOnChar '|' (pyStrip line)).map pyStrip with
      _ | ⟨p0, _ | ⟨p1, _ | ⟨p2, rest⟩⟩⟩ <;>
        simp only [hsegs, List.length_cons, List.length_nil] at h ⊢ <;> try rfl
    omega
  · rw [if_neg hpre]

theorem parse_none_of_bad_rpm (line : List Char)
    (p0 p1 p2 : List Char) (rest : List (List Char))
    (hsegs : (splitOnChar '|' (pyStrip line)).map pyStrip = p0 :: p1 :: p2 :: rest)
    (h : ((splitWS p0)[1]?).bind pyFloat = none) :
    parseReading line = none := by
  unfold parseReading
  by_cases hpre : ("RPM:".data).isPrefixOf (pyStrip line) = true
  · rw [if_pos hpre]
    simp only [hsegs, h]
  · rw [if_neg hpre]

theorem parse_none_of_bad_sp (line : List Char)
    (p0 p1 p2 : List Char) (rest : List (List Char)) (rpm : ℚ)
    (hsegs : (splitOnChar '|' (pyStrip line)).map pyStrip = p0 :: p1 :: p2 :: rest)
    (hrpm : ((splitWS p0)[1]?).bind pyFloat = some rpm)
    (h : ((splitWS p1)[1]?).bind pyFloat = none) :
    parseReading line = none := by
  unfold parseReading
  by_cases hpre : ("RPM:".data).isPrefixOf (pyStrip line) = true
  · rw [if_pos hpre]
    simp only [hsegs, hrpm, h]
  · rw [if_neg hpre]

/-- C2 is falsified by the code: for the line `RPM: 5.0 | SP: x | STATE: 0`
— which starts with `RPM:`, has three `|`-segments, and whose SP token
fails to parse as a float — the handler has already written the RPM
readout before the SP parse raises, so observable state *does* change
(`temp_var` goes from the placeholder to `5.0`), contradicting the
claimed no-mutation guarantee. -/
theorem C2_counterexample :
    pyFloat "x".data = none ∧
    ("RPM:".data).isPrefixOf (pyStrip "RPM: 5.0 | SP: x | STATE: 0".data) = true ∧
    ((splitOnChar '|' (pyStrip "RPM: 5.0 | SP: x | STATE: 0".data)).map pyStrip).length = 3 ∧
    (handle_device_line initState "RPM: 5.0 | SP: x | STATE: 0".data).temp_var = some 5 ∧
    initState.temp_var = none := by
  refine ⟨by decide, by decide, by decide, ?_, by decide⟩
  decide

/-- C2 (amended): a line that does not start with `RPM:`, or has fewer
than three `|`-segments, or whose RPM token fails to parse as a float,
yields no Status Reading and leaves the state exactly unchanged (and no
error is surfaced); a line whose RPM token parses to `rpm` but whose SP
token fails yields no Status Reading and changes *only* the RPM readout
(to `rpm`), because the handler mutates it before the SP parse raises. -/
theorem C2_malformed_line_handling (g : GuiState) (line : List Char) :
    (¬ ("RPM:".data).isPrefixOf (pyStrip line) = true →
      parseReading line = none ∧ handle_device_line g line = g)
    ∧ (((splitOnChar '|' (pyStrip line)).map pyStrip).length < 3 →
      parseReading line = none ∧ handle_device_line g line = g)
    ∧ (∀ p0 p1 p2 rest,
        (splitOnChar '|' (pyStrip line)).map pyStrip = p0 :: p1 :: p2 :: rest →
        ((splitWS p0)[1]?).bind pyFloat = none →
        parseReading line = none ∧ handle_device_line g line = g)
    ∧ (∀ p0 p1 p2 rest rpm,
        ("RPM:".data).isPrefixOf (pyStrip line) = true →
        (splitOnChar '|' (pyStrip line)).map pyStrip = p0 :: p1 :: p2 :: rest →
        ((splitWS p0)[1]?).bind pyFloat = some rpm →
        ((splitWS p1)[1]?).bind pyFloat = none →
        parseReading line = none ∧
        handle_device_line g line = { g with temp_var := some rpm }) := by
  refine ⟨fun h => ⟨parse_none_of_no_rpm_tag line h, handle_of_no_rpm_tag g line h⟩,
          fun h => ⟨parse_none_of_few_segments line h, handle_of_few_segments g line h⟩,
          fun p0 p1 p2 rest hsegs h =>
            ⟨parse_none_of_bad_rpm line p0 p1 p2 rest hsegs h,
             handle_of_bad_rpm g line p0 p1 p2 rest hsegs h⟩,
          fun p0 p1 p2 rest rpm hpre hsegs hrpm h =>
            ⟨parse_none_of_bad_sp line p0 p1 p2 rest rpm hsegs hrpm h,
             handle_of_bad_sp g line p0 p1 p2 rest rpm hpre hsegs hrpm h⟩⟩

theorem C2_malformed_line_handling_witness :
    (parseReading "garbage".data = none ∧
      handle_device_line initState "garbage".data = initState) ∧
    (parseReading "RPM: 5.0 | SP: x | STATE: 0".data = none ∧
      handle_device_line initState "RPM: 5.0 | SP: x | STATE: 0".data
        = { initState with temp_var := some 5 }) := by
  constructor
  · exact (C2_malformed_line_handling initState "garbage".data).1 (by decide)
  · exact (C2_malformed_line_handling initState "RPM: 5.0 | SP: x | STATE: 0".data).2.2.2
      "RPM: 5.0".data "SP: x".data "STATE: 0".data [] 5
      (by decide) (by decide) (by decide) (by decide)

/-! ## History buffer bound (C3) -/

theorem on_slider_changed_ignored (g : GuiState)
    (h : g.ignore_slider_change = true) : on_slider_changed g = g := by
  unfold on_slider_changed
  rw [if_pos h]

theorem handle_hist_of_parse_none (g : GuiState) (line : List Char)
    (h : parseReading line = none) :
    (handle_device_line g line).sample_indices = g.sample_indices ∧
    (handle_device_line g line).temp_history = g.temp_history ∧
    (handle_device_line g line).sp_history = g.sp_history ∧
    (handle_device_line g line).sample_count = g.sample_count := by
  unfold parseReading at h
  unfold handle_device_line
  by_cases hpre : ("RPM:".data).isPrefixOf (pyStrip line) = true
  · rw [if_pos hpre] at h ⊢
    rcases hsegs : (splitOnChar '|' (pyStrip line)).map pyStrip with
      _ | ⟨p0, _ | ⟨p1, _ | ⟨p2, rest⟩⟩⟩
    · simp [hsegs]
    · simp [hsegs]
    · simp [hsegs]
    · rcases hrpm : ((splitWS p0)[1]?).bind pyFloat with _ | rpm
      · simp [hsegs, hrpm]
      · rcases hsp : ((splitWS p1)[1]?).bind pyFloat with _ | sp
        · simp [hsegs, hrpm, hsp]
        · rcases htok : (splitWS (stateLabelOf p2))[0]? with _ | tok
          · simp only [hsegs, hrpm, hsp, htok]
            split <;> simp [on_slider_changed_ignored]
          · simp only [hsegs, hrpm, hsp, htok] at h
            exact absurd h (by simp)
  · rw [if_neg hpre] at h ⊢
    exact ⟨rfl, rfl, rfl, rfl⟩

@[simp] theorem applyDisplays_client (g : GuiState) (r : Reading) :
    (applyDisplays g r).client = g.client := by
  simp only [applyDisplays]
  all_goals split <;> simp [on_slider_changed_ignored]

@[simp] theorem applyDisplays_slider_revert_after_id (g : GuiState) (r : Reading) :
    (applyDisplays g r).slider_revert_after_id = g.slider_revert_after_id := by
  simp only [applyDisplays]
  all_goals split <;> simp [on_slider_changed_ignored]

@[simp] theorem applyDisplays_user_adjusting_slider (g : GuiState) (r : Reading) :
    (applyDisplays g r).user_adjusting_slider = g.user_adjusting_slider := by
  simp only [applyDisplays]
  all_goals split <;> simp [on_slider_changed_ignored]

@[simp] theorem applyDisplays_temp_history (g : GuiState) (r : Reading) :
    (applyDisplays g r).temp_history = g.temp_history := by
  simp only [applyDisplays]
  all_goals split <;> simp [on_slider_changed_ignored]

@[simp] theorem applyDisplays_sp_history (g : GuiState) (r : Reading) :
    (applyDisplays g r).sp_history = g.sp_history := by
  simp only [applyDisplays]
  all_goals split <;> simp [on_slider_changed_ignored]

@[simp] theorem applyDisplays_sample_indices (g : GuiState) (r : Reading) :
    (applyDisplays g r).sample_indices = g.sample_indices := by
  simp only [applyDisplays]
  all_goals split <;> simp [on_slider_changed_ignored]

@[simp] theorem applyDisplays_sample_count (g : GuiState) (r : Reading) :
    (applyDisplays g r).sample_count = g.sample_count := by
  simp only [applyDisplays]
  all_goals split <;> simp [on_slider_changed_ignored]

@[simp] theorem applyDisplays_connect_enabled (g : GuiState) (r : Reading) :
    (applyDisplays g r).connect_enabled = g.connect_enabled := by
  simp only [applyDisplays]
  all_goals split <;> simp [on_slider_changed_ignored]

@[simp] theorem applyDisplays_disconnect_enabled (g : GuiState) (r : Reading) :
    (applyDisplays g r).disconnect_enabled = g.disconnect_enabled := by
  simp only [applyDisplays]
  all_goals split <;> simp [on_slider_changed_ignored]

@[simp] theorem applyDisplays_set_enabled (g : GuiState) (r : Reading) :
    (applyDisplays g r).set_enabled = g.set_enabled := by
  simp only [applyDisplays]
  all_goals split <;> simp [on_slider_changed_ignored]

@[simp] theorem applyDisplays_dialogs (g : GuiState) (r : Reading) :
    (applyDisplays g r).dialogs = g.dialogs := by
  simp only [applyDisplays]
  all_goals split <;> simp [on_slider_changed_ignored]

@[simp] theorem applyDisplays_pendingTimers (g : GuiState) (r : Reading) :
    (applyDisplays g r).pendingTimers = g.pendingTimers := by
  simp only [applyDisplays]
  all_goals split <;> simp [on_slider_changed_ignored]

@[simp] theorem applyDisplays_nextTimerId (g : GuiState) (r : Reading) :
    (applyDisplays g r).nextTimerId = g.nextTimerId := by
  simp only [applyDisplays]
  all_goals split <;> simp [on_slider_changed_ignored]

@[simp] theorem applyDisplays_now (g : GuiState) (r : Reading) :
    (applyDisplays g r).now = g.now := by
  simp only [applyDisplays]
  all_goals split <;> simp [on_slider_changed_ignored]

@[simp] theorem applyDisplays_temp_var (g : GuiState) (r : Reading) :
    (applyDisplays g r).temp_var = some r.rpm := by
  simp only [applyDisplays]
  all_goals split <;> simp [on_slider_changed_ignored]

@[simp] theorem applyDisplays_sp_var (g : GuiState) (r : Reading) :
    (applyDisplays g r).sp_var = some r.setpoint := by
  simp only [applyDisplays]
  all_goals split <;> simp [on_slider_changed_ignored]

@[simp] theorem applyDisplays_current_sp_value (g : GuiState) (r : Reading) :
    (applyDisplays g r).current_sp_value = some r.setpoint := by
  simp only [applyDisplays]
  all_goals split <;> simp [on_slider_changed_ignored]

@[simp] theorem applyDisplays_state_var (g : GuiState) (r : Reading) :
    (applyDisplays g r).state_var = some r.stateLabel := by
  simp only [applyDisplays]
  all_goals split <;> simp [on_slider_changed_ignored]

@[simp] theorem applyDisplays_sp_slider_var (g : GuiState) (r : Reading) :
    (applyDisplays g r).sp_slider_var = (if g.user_adjusting_slider = true then g.sp_slider_var else pyRound r.setpoint) := by
  simp only [applyDisplays]
  all_goals split <;> rename_i hcond <;> simp_all [on_slider_changed_ignored]

@[simp] theorem applyDisplays_sp_slider_label (g : GuiState) (r : Reading) :
    (applyDisplays g r).sp_slider_label = (if g.user_adjusting_slider = true then g.sp_slider_label else some r.setpoint) := by
  simp only [applyDisplays]
  all_goals split <;> rename_i hcond <;> simp_all [on_slider_changed_ignored]

@[simp] theorem applyDisplays_ignore_slider_change (g : GuiState) (r : Reading) :
    (applyDisplays g r).ignore_slider_change = (if g.user_adjusting_slider = true then g.ignore_slider_change else false) := by
  simp only [applyDisplays]
  all_goals split <;> rename_i hcond <;> simp_all [on_slider_changed_ignored]

@[simp] theorem applyGating_client (g : GuiState) (code : Option Int) :
    (applyGating g code).client = g.client := by
  simp only [applyGating]
  split
  · rfl
  · by_cases h1 : code = some 1
    · simp [h1]
    · by_cases h0 : code = some 0 <;> simp [h1, h0]

@[simp] theorem applyGating_current_sp_value (g : GuiState) (code : Option Int) :
    (applyGating g code).current_sp_value = g.current_sp_value := by
  simp only [applyGating]
  split
  · rfl
  · by_cases h1 : code = some 1
    · simp [h1]
    · by_cases h0 : code = some 0 <;> simp [h1, h0]

@[simp] theorem applyGating_slider_revert_after_id (g : GuiState) (code : Option Int) :
    (applyGating g code).slider_revert_after_id = g.slider_revert_after_id := by
  simp only [applyGating]
  split
  · rfl
  · by_cases h1 : code = some 1
    · simp [h1]
    · by_cases h0 : code = some 0 <;> simp [h1, h0]

@[simp] theorem applyGating_user_adjusting_slider (g : GuiState) (code : Option Int) :
    (applyGating g code).user_adjusting_slider = g.user_adjusting_slider := by
  simp only [applyGating]
  split
  · rfl
  · by_cases h1 : code = some 1
    · simp [h1]
    · by_cases h0 : code = some 0 <;> simp [h1, h0]

@[simp] theorem applyGating_ignore_slider_change (g : GuiState) (code : Option Int) :
    (applyGating g code).ignore_slider_change = g.ignore_slider_change := by
  simp only [applyGating]
  split
  · rfl
  · by_cases h1 : code = some 1
    · simp [h1]
    · by_cases h0 : code = some 0 <;> simp [h1, h0]

@[simp] theorem applyGating_temp_history (g : GuiState) (code : Option Int) :
    (applyGating g code).temp_history = g.temp_history := by
  simp only [applyGating]
  split
  · rfl
  · by_cases h1 : code = some 1
    · simp [h1]
    · by_cases h0 : code = some 0 <;> simp [h1, h0]

@[simp] theorem applyGating_sp_history (g : GuiState) (code : Option Int) :
    (applyGating g code).sp_history = g.sp_history := by
  simp only [applyGating]
  split
  · rfl
  · by_cases h1 : code = some 1
    · simp [h1]
    · by_cases h0 : code = some 0 <;> simp [h1, h0]

@[simp] theorem applyGating_sample_indices (g : GuiState) (code : Option Int) :
    (applyGating g code).sample_indices = g.sample_indices := by
  simp only [applyGating]
  split
  · rfl
  · by_cases h1 : code = some 1
    · simp [h1]
    · by_cases h0 : code = some 0 <;> simp [h1, h0]

@[simp] theorem applyGating_sample_count (g : GuiState) (code : Option Int) :
    (applyGating g code).sample_count = g.sample_count := by
  simp only [applyGating]
  split
  · rfl
  · by_cases h1 : code = some 1
    · simp [h1]
    · by_cases h0 : code = some 0 <;> simp [h1, h0]

@[simp] theorem applyGating_temp_var (g : GuiState) (code : Option Int) :
    (applyGating g code).temp_var = g.temp_var := by
  simp only [applyGating]
  split
  · rfl
  · by_cases h1 : code = some 1
    · simp [h1]
    · by_cases h0 : code = some 0 <;> simp [h1, h0]

@[simp] theorem applyGating_sp_var (g : GuiState) (code : Option Int) :
    (applyGating g code).sp_var = g.sp_var := by
  simp only [applyGating]
  split
  · rfl
  · by_cases h1 : code = some 1
    · simp [h1]
    · by_cases h0 : code = some 0 <;> simp [h1, h0]

@[simp] theorem applyGating_state_var (g : GuiState) (code : Option Int) :
    (applyGating g code).state_var = g.state_var := by
  simp only [applyGating]
  split
  · rfl
  · by_cases h1 : code = some 1
    · simp [h1]
    · by_cases h0 : code = some 0 <;> simp [h1, h0]

@[simp] theorem applyGating_sp_slider_var (g : GuiState) (code : Option Int) :
    (applyGating g code).sp_slider_var = g.sp_slider_var := by
  simp only [applyGating]
  split
  · rfl
  · by_cases h1 : code = some 1
    · simp [h1]
    · by_cases h0 : code = some 0 <;> simp [h1, h0]

@[simp] theorem applyGating_sp_slider_label (g : GuiState) (code : Option Int) :
    (applyGating g code).sp_slider_label = g.sp_slider_label := by
  simp only [applyGating]
  split
  · rfl
  · by_cases h1 : code = some 1
    · simp [h1]
    · by_cases h0 : code = some 0 <;> simp [h1, h0]

@[simp] theorem applyGating_connect_enabled (g : GuiState) (code : Option Int) :
    (applyGating g code).connect_enabled = g.connect_enabled := by
  simp only [applyGating]
  split
  · rfl
  · by_cases h1 : code = some 1
    · simp [h1]
    · by_cases h0 : code = some 0 <;> simp [h1, h0]

@[simp] theorem applyGating_disconnect_enabled (g : GuiState) (code : Option Int) :
    (applyGating g code).disconnect_enabled = g.disconnect_enabled := by
  simp only [applyGating]
  split
  · rfl
  · by_cases h1 : code = some 1
    · simp [h1]
    · by_cases h0 : code = some 0 <;> simp [h1, h0]

@[simp] theorem applyGating_set_enabled (g : GuiState) (code : Option Int) :
    (applyGating g code).set_enabled =
      (match g.client with
       | none => g.set_enabled
       | some _ =>
         if code = some 1 then false
         else if code = some 0 then true
         else g.set_enabled) := by
  simp only [applyGating]
  split
  · rfl
  · by_cases h1 : code = some 1
    · simp [h1]
    · by_cases h0 : code = some 0 <;> simp [h1, h0]

@[simp] theorem applyGating_dialogs (g : GuiState) (code : Option Int) :
    (applyGating g code).dialogs = g.dialogs := by
  simp only [applyGating]
  split
  · rfl
  · by_cases h1 : code = some 1
    · simp [h1]
    · by_cases h0 : code = some 0 <;> simp [h1, h0]

@[simp] theorem applyGating_pendingTimers (g : GuiState) (code : Option Int) :
    (applyGating g code).pendingTimers = g.pendingTimers := by
  simp only [applyGating]
  split
  · rfl
  · by_cases h1 : code = some 1
    · simp [h1]
    · by_cases h0 : code = some 0 <;> simp [h1, h0]

@[simp] theorem applyGating_nextTimerId (g : GuiState) (code : Option Int) :
    (applyGating g code).nextTimerId = g.nextTimerId := by
  simp only [applyGating]
  split
  · rfl
  · by_cases h1 : code = some 1
    · simp [h1]
    · by_cases h0 : code = some 0 <;> simp [h1, h0]

@[simp] theorem applyGating_now (g : GuiState) (code : Option Int) :
    (applyGating g code).now = g.now := by
  simp only [applyGating]
  split
  · rfl
  · by_cases h1 : code = some 1
    · simp [h1]
    · by_cases h0 : code = some 0 <;> simp [h1, h0]

@[simp] theorem applyHistory_client (g : GuiState) (rpm sp : ℚ) :
    (applyHistory g rpm sp).client = g.client := by
  simp only [applyHistory]
  all_goals split <;> simp

@[simp] theorem applyHistory_current_sp_value (g : GuiState) (rpm sp : ℚ) :
    (applyHistory g rpm sp).current_sp_value = g.current_sp_value := by
  simp only [applyHistory]
  all_goals split <;> simp

@[simp] theorem applyHistory_slider_revert_after_id (g : GuiState) (rpm sp : ℚ) :
    (applyHistory g rpm sp).slider_revert_after_id = g.slider_revert_after_id := by
  simp only [applyHistory]
  all_goals split <;> simp

@[simp] theorem applyHistory_user_adjusting_slider (g : GuiState) (rpm sp : ℚ) :
    (applyHistory g rpm sp).user_adjusting_slider = g.user_adjusting_slider := by
  simp only [applyHistory]
  all_goals split <;> simp

@[simp] theorem applyHistory_ignore_slider_change (g : GuiState) (rpm sp : ℚ) :
    (applyHistory g rpm sp).ignore_slider_change = g.ignore_slider_change := by
  simp only [applyHistory]
  all_goals split <;> simp

@[simp] theorem applyHistory_temp_var (g : GuiState) (rpm sp : ℚ) :
    (applyHistory g rpm sp).temp_var = g.temp_var := by
  simp only [applyHistory]
  all_goals split <;> simp

@[simp] theorem applyHistory_sp_var (g : GuiState) (rpm sp : ℚ) :
    (applyHistory g rpm sp).sp_var = g.sp_var := by
  simp only [applyHistory]
  all_goals split <;> simp

@[simp] theorem applyHistory_state_var (g : GuiState) (rpm sp : ℚ) :
    (applyHistory g rpm sp).state_var = g.state_var := by
  simp only [applyHistory]
  all_goals split <;> simp

@[simp] theorem applyHistory_sp_slider_var (g : GuiState) (rpm sp : ℚ) :
    (applyHistory g rpm sp).sp_slider_var = g.sp_slider_var := by
  simp only [applyHistory]
  all_goals split <;> simp

@[simp] theorem applyHistory_sp_slider_label (g : GuiState) (rpm sp : ℚ) :
    (applyHistory g rpm sp).sp_slider_label = g.sp_slider_label := by
  simp only [applyHistory]
  all_goals split <;> simp

@[simp] theorem applyHistory_connect_enabled (g : GuiState) (rpm sp : ℚ) :
    (applyHistory g rpm sp).connect_enabled = g.connect_enabled := by
  simp only [applyHistory]
  all_goals split <;> simp

@[simp] theorem applyHistory_disconnect_enabled (g : GuiState) (rpm sp : ℚ) :
    (applyHistory g rpm sp).disconnect_enabled = g.disconnect_enabled := by
  simp only [applyHistory]
  all_goals split <;> simp

@[simp] theorem applyHistory_set_enabled (g : GuiState) (rpm sp : ℚ) :
    (applyHistory g rpm sp).set_enabled = g.set_enabled := by
  simp only [applyHistory]
  all_goals split <;> simp

@[simp] theorem applyHistory_dialogs (g : GuiState) (rpm sp : ℚ) :
    (applyHistory g rpm sp).dialogs = g.dialogs := by
  simp only [applyHistory]
  all_goals split <;> simp

@[simp] theorem applyHistory_pendingTimers (g : GuiState) (rpm sp : ℚ) :
    (applyHistory g rpm sp).pendingTimers = g.pendingTimers := by
  simp only [applyHistory]
  all_goals split <;> simp

@[simp] theorem applyHistory_nextTimerId (g : GuiState) (rpm sp : ℚ) :
    (applyHistory g rpm sp).nextTimerId = g.nextTimerId := by
  simp only [applyHistory]
  all_goals split <;> simp

@[simp] theorem applyHistory_now (g : GuiState) (rpm sp : ℚ) :
    (applyHistory g rpm sp).now = g.now := by
  simp only [applyHistory]
  all_goals split <;> simp

@[simp] theorem applyHistory_sample_count (g : GuiState) (rpm sp : ℚ) :
    (applyHistory g rpm sp).sample_count = g.sample_count + 1 := by
  simp only [applyHistory]
  all_goals split <;> simp

@[simp] theorem applyHistory_sample_indices (g : GuiState) (rpm sp : ℚ) :
    (applyHistory g rpm sp).sample_indices =
      (if (g.sample_indices ++ [g.sample_count + 1]).length > maxPoints
       then (g.sample_indices ++ [g.sample_count + 1]).tail
       else g.sample_indices ++ [g.sample_count + 1]) := by
  simp only [applyHistory]
  all_goals split <;> simp_all

@[simp] theorem applyHistory_temp_history (g : GuiState) (rpm sp : ℚ) :
    (applyHistory g rpm sp).temp_history =
      (if (g.sample_indices ++ [g.sample_count + 1]).length > maxPoints
       then (g.temp_history ++ [rpm]).tail
       else g.temp_history ++ [rpm]) := by
  simp only [applyHistory]
  all_goals split <;> simp_all

@[simp] theorem applyHistory_sp_history (g : GuiState) (rpm sp : ℚ) :
    (applyHistory g rpm sp).sp_history =
      (if (g.sample_indices ++ [g.sample_count + 1]).length > maxPoints
       then (g.sp_history ++ [sp]).tail
       else g.sp_history ++ [sp]) := by
  simp only [applyHistory]
  all_goals split <;> simp_all

theorem applyReading_hist (g : GuiState) (r : Reading) :
    (applyReading g r).sample_count = g.sample_count + 1 ∧
    (applyReading g r).sample_indices =
      (if (g.sample_indices ++ [g.sample_count + 1]).length > maxPoints
       then (g.sample_indices ++ [g.sample_count + 1]).tail
       else g.sample_indices ++ [g.sample_count + 1]) ∧
    (applyReading g r).temp_history =
      (if (g.sample_indices ++ [g.sample_count + 1]).length > maxPoints
       then (g.temp_history ++ [r.rpm]).tail
       else g.temp_history ++ [r.rpm]) ∧
    (applyReading g r).sp_history =
      (if (g.sample_indices ++ [g.sample_count + 1]).length > maxPoints
       then (g.sp_history ++ [r.setpoint]).tail
       else g.sp_history ++ [r.setpoint]) := by
  unfold applyReading
  refine ⟨by simp, by simp, by simp, by simp⟩

theorem idxFrom_length (a n : Nat) : (idxFrom a n).length = n := by
  simp [idxFrom]

theorem idxFrom_concat (a n : Nat) : idxFrom a n ++ [a + n] = idxFrom a (n + 1) := by
  simp [idxFrom, List.range_succ]

theorem idxFrom_tail (a n : Nat) : (idxFrom a (n + 1)).tail = idxFrom (a + 1) n := by
  simp only [idxFrom, List.range_succ_eq_map, List.map_cons, List.tail_cons, List.map_map]
  apply List.map_congr_left
  intro i _
  simp [Function.comp]
  omega

theorem handle_sample_step (g : GuiState) :
    (handle_device_line g sampleLine).sample_count = g.sample_count + 1 ∧
    (handle_device_line g sampleLine).sample_indices =
      (if (g.sample_indices ++ [g.sample_count + 1]).length > maxPoints
       then (g.sample_indices ++ [g.sample_count + 1]).tail
       else g.sample_indices ++ [g.sample_count + 1]) := by
  rw [handle_of_parse_some g sampleLine ⟨1, 2, some 0, "0".data⟩ (by decide)]
  exact ⟨(applyReading_hist g _).1, (applyReading_hist g _).2.1⟩

theorem idxFrom_one_concat (n : Nat) : idxFrom 1 n ++ [n + 1] = idxFrom 1 (n + 1) := by
  have h := idxFrom_concat 1 n
  rwa [Nat.add_comm 1 n] at h

set_option maxRecDepth 4000 in
theorem iter_sample_spec (n : Nat) :
    (iterHandle sampleLine n).sample_count = n ∧
    (iterHandle sampleLine n).sample_indices =
      (if n ≤ 300 then idxFrom 1 n else idxFrom (n - 299) 300) := by
  induction n with
  | zero => exact ⟨rfl, by simp [iterHandle, initState, idxFrom]⟩
  | succ n ih =>
    obtain ⟨ihc, ihi⟩ := ih
    have hs := handle_sample_step (iterHandle sampleLine n)
    constructor
    · show (handle_device_line (iterHandle sampleLine n) sampleLine).sample_count = n + 1
      rw [hs.1, ihc]
    · show (handle_device_line (iterHandle sampleLine n) sampleLine).sample_indices = _
      rw [hs.2, ihc, ihi]
      by_cases h1 : n ≤ 300
      · rw [if_pos h1]
        have hlen : (idxFrom 1 n ++ [n + 1]).length = n + 1 := by
          simp [idxFrom_length]
        rw [hlen]
        simp only [maxPoints]
        by_cases h2 : n < 300
        · rw [if_neg (show ¬ n + 1 > 300 from by omega),
              if_pos (show n + 1 ≤ 300 from by omega),
              idxFrom_one_concat]
        · have hn : n = 300 := by omega
          subst hn
          rw [if_pos (show 300 + 1 > 300 from by omega),
              if_neg (show ¬ (300 + 1 ≤ 300) from by omega),
              idxFrom_one_concat,
              show (300 : Nat) + 1 - 299 = 1 + 1 from by omega,
              idxFrom_tail]
      · rw [if_neg h1]
        have hlen : (idxFrom (n - 299) 300 ++ [n + 1]).length = 300 + 1 := by
          simp [idxFrom_length]
        rw [hlen]
        simp only [maxPoints]
        rw [if_pos (show 300 + 1 > 300 from by omega),
            if_neg (show ¬ (n + 1 ≤ 300) from by omega)]
        have ha : n + 1 = (n - 299) + 300 := by omega
        have hb : idxFrom (n - 299) 300 ++ [n + 1] = idxFrom (n - 299) (300 + 1) := by
          rw [ha, idxFrom_concat]
        rw [hb, idxFrom_tail]
        congr 1
        omega

theorem handle_histInv (g : GuiState) (line : List Char) (h : histInv g) :
    histInv (handle_device_line g line) := by
  rcases hp : parseReading line with _ | r
  · obtain ⟨h1, h2, h3, _⟩ := handle_hist_of_parse_none g line hp
    unfold histInv at h ⊢
    rw [h1, h2, h3]
    exact h
  · rw [handle_of_parse_some g line r hp]
    obtain ⟨_, hi, ht, hsp⟩ := applyReading_hist g r
    unfold histInv at h ⊢
    rw [hi, ht, hsp]
    obtain ⟨hL, hT, hS⟩ := h
    by_cases hb : (g.sample_indices ++ [g.sample_count + 1]).length > maxPoints
    · rw [if_pos hb, if_pos hb, if_pos hb]
      simp only [List.length_tail, List.length_append, List.length_cons,
        List.length_nil] at hb ⊢
      refine ⟨by omega, by omega, by omega⟩
    · rw [if_neg hb, if_neg hb, if_neg hb]
      simp only [List.length_append, List.length_cons, List.length_nil] at hb ⊢
      refine ⟨by omega, by omega, by omega⟩

/-- C3: the history buffer never exceeds 300 entries — the invariant
(three parallel lists of equal length at most `max_points`) is preserved
by every inbound line; every accepted reading increments the sample
counter by exactly one (appending one entry to each list); and after
301 accepted readings from a fresh GUI the indices are `[2..301]`, so
the first reading is gone and the 301st is present. -/
theorem C3_history_bound :
    (∀ g line, histInv g → histInv (handle_device_line g line)) ∧
    (∀ g line r, parseReading line = some r →
      (handle_device_line g line).sample_count = g.sample_count + 1) ∧
    (iterHandle sampleLine 301).sample_indices = idxFrom 2 300 ∧
    (1 : Nat) ∉ (iterHandle sampleLine 301).sample_indices ∧
    (301 : Nat) ∈ (iterHandle sampleLine 301).sample_indices := by
  have h301 : (iterHandle sampleLine 301).sample_indices = idxFrom 2 300 := by
    have h := (iter_sample_spec 301).2
    rw [if_neg (by omega)] at h
    simpa using h
  refine ⟨handle_histInv, ?_, h301, ?_, ?_⟩
  · intro g line r hp
    rw [handle_of_parse_some g line r hp]
    exact (applyReading_hist g r).1
  · rw [h301]
    decide
  · rw [h301]
    decide

theorem C3_history_bound_witness :
    histInv initState ∧
    histInv (handle_device_line initState sampleLine) ∧
    (handle_device_line initState sampleLine).sample_count
      = initState.sample_count + 1 := by
  have h0 : histInv initState := by
    unfold histInv
    exact ⟨by decide, by decide, by decide⟩
  exact ⟨h0, C3_history_bound.1 initState sampleLine h0,
    C3_history_bound.2.1 initState sampleLine ⟨1, 2, some 0, "0".data⟩ (by decide)⟩

/-! ## Revert-timer workflow (C4, C5, C6) -/

theorem filter_ne_of_fst_single (l : List (Nat × Nat)) (i : Nat)
    (h : l.map Prod.fst = [i]) : l.filter (fun p => p.1 != i) = [] := by
  rcases l with _ | ⟨x, _ | ⟨y, t⟩⟩ <;> simp_all

theorem userMoveSlider_ignored (g : GuiState) (v : Int)
    (hig : g.ignore_slider_change = true) :
    userMoveSlider g v = { g with sp_slider_var := v } := by
  unfold userMoveSlider
  exact on_slider_changed_ignored _ hig

theorem userMoveSlider_real (g : GuiState) (v : Int)
    (hig : g.ignore_slider_change = false) (hinv : timerInv g) :
    (userMoveSlider g v).pendingTimers = [(g.nextTimerId, g.now + 5000)] ∧
    (userMoveSlider g v).slider_revert_after_id = some g.nextTimerId ∧
    (userMoveSlider g v).nextTimerId = g.nextTimerId + 1 ∧
    (userMoveSlider g v).now = g.now ∧
    (userMoveSlider g v).ignore_slider_change = false ∧
    (userMoveSlider g v).user_adjusting_slider = true ∧
    (userMoveSlider g v).sp_slider_var = v := by
  unfold userMoveSlider on_slider_changed
  rw [if_neg (by simp [hig])]
  unfold timerInv at hinv
  rcases hid : g.slider_revert_after_id with _ | i
  · simp only [hid] at hinv
    simp [hid, hinv, hig]
  · simp only [hid] at hinv
    simp [hid, hig, filter_ne_of_fst_single g.pendingTimers i hinv.1]

theorem timerInv_userMoveSlider (g : GuiState) (v : Int) (hinv : timerInv g) :
    timerInv (userMoveSlider g v) := by
  by_cases hig : g.ignore_slider_change = true
  · rw [userMoveSlider_ignored g v hig]
    unfold timerInv at hinv ⊢
    exact hinv
  · have h := userMoveSlider_real g v (by simpa using hig) hinv
    unfold timerInv
    rw [h.2.1, h.1, h.2.2.1]
    exact ⟨rfl, by omega⟩

/-- C4: from the Adjusting state (user adjusting, with the timer
invariant) with an active connection, a confirm (`on_set_sp` with a
successful write) sends exactly one outbound setpoint command whose
value is the slider value rounded to the nearest integer, cancels the
outstanding revert timer, records that value as the new authoritative
setpoint (and setpoint readout), and returns the workflow to Idle (not
adjusting, no timer pending). -/
theorem C4_confirm_sends_and_idles (g : GuiState) (c : HotplateClient)
    (hc : g.client = some c) (hsock : c.sock = some SockState.active)
    (hadj : g.user_adjusting_slider = true) (hinv : timerInv g) :
    (on_set_sp g true).client =
      some { c with
             sentValues := c.sentValues ++ [pyRound ((g.sp_slider_var : ℚ))],
             statusMsgs :=
               c.statusMsgs ++ [.sentSetpoint (pyRound ((g.sp_slider_var : ℚ)))] } ∧
    (on_set_sp g true).current_sp_value = some ((pyRound ((g.sp_slider_var : ℚ)) : ℚ)) ∧
    (on_set_sp g true).sp_var = some ((pyRound ((g.sp_slider_var : ℚ)) : ℚ)) ∧
    (on_set_sp g true).user_adjusting_slider = false ∧
    (on_set_sp g true).slider_revert_after_id = none ∧
    (on_set_sp g true).pendingTimers = [] := by
  unfold on_set_sp send_setpoint
  rw [hc]
  unfold timerInv at hinv
  rcases hid : g.slider_revert_after_id with _ | i
  · simp only [hid] at hinv
    simp [hid, hinv, hsock]
  · simp only [hid] at hinv
    simp [hid, hsock, filter_ne_of_fst_single g.pendingTimers i hinv.1]

theorem C4_confirm_sends_and_idles_witness :
    (on_set_sp adjustingState true).client =
      some { mkClient 5000 with
             sock := some SockState.active,
             sentValues := [42],
             statusMsgs := [StatusMsg.connecting, StatusMsg.sentSetpoint 42] } ∧
    (on_set_sp adjustingState true).current_sp_value = some 42 ∧
    (on_set_sp adjustingState true).sp_var = some 42 ∧
    (on_set_sp adjustingState true).user_adjusting_slider = false ∧
    (on_set_sp adjustingState true).slider_revert_after_id = none ∧
    (on_set_sp adjustingState true).pendingTimers = [] := by
  have h := C4_confirm_sends_and_idles adjustingState
    { mkClient 5000 with sock := some SockState.active }
    rfl rfl rfl (by unfold timerInv adjustingState; exact ⟨rfl, by decide⟩)
  simpa [adjustingState, mkClient] using h

/-- C5: from the Adjusting state with one outstanding revert timer and a
known authoritative setpoint `sp`, the timer firing resets the slider to
`round(sp)` (not the user's candidate), discards the candidate, returns
the workflow to Idle (not adjusting, timer handle cleared, no timer
pending), and does not itself re-trigger the Idle → Adjusting
transition: the programmatic slider write runs under the
`ignore_slider_change` guard, so no new timer is armed
(`pendingTimers` stays empty and no fresh timer id is allocated). -/
theorem C5_timeout_reverts_slider (g : GuiState) (i t : Nat) (sp : ℚ)
    (hadj : g.user_adjusting_slider = true)
    (hid : g.slider_revert_after_id = some i)
    (hpend : g.pendingTimers = [(i, t)])
    (hsp : g.current_sp_value = some sp) :
    (fireRevert g i).sp_slider_var = pyRound sp ∧
    (fireRevert g i).user_adjusting_slider = false ∧
    (fireRevert g i).slider_revert_after_id = none ∧
    (fireRevert g i).pendingTimers = [] ∧
    (fireRevert g i).nextTimerId = g.nextTimerId ∧
    (fireRevert g i).sp_slider_label = some sp ∧
    (fireRevert g i).current_sp_value = some sp := by
  unfold fireRevert revert_slider_to_current_sp
  rw [hpend]
  rw [if_neg (by simp)]
  simp [hsp, on_slider_changed_ignored]

theorem C5_timeout_reverts_slider_witness :
    (fireRevert { adjustingState with current_sp_value := some 7 } 0).sp_slider_var = 7 ∧
    (fireRevert { adjustingState with current_sp_value := some 7 } 0).user_adjusting_slider = false ∧
    (fireRevert { adjustingState with current_sp_value := some 7 } 0).slider_revert_after_id = none ∧
    (fireRevert { adjustingState with current_sp_value := some 7 } 0).pendingTimers = [] ∧
    (fireRevert { adjustingState with current_sp_value := some 7 } 0).nextTimerId = 1 ∧
    (fireRevert { adjustingState with current_sp_value := some 7 } 0).sp_slider_label = some 7 ∧
    (fireRevert { adjustingState with current_sp_value := some 7 } 0).current_sp_value = some 7 := by
  have h := C5_timeout_reverts_slider
    { adjustingState with current_sp_value := some 7 } 0 5000 7
    (by decide) rfl rfl rfl
  simpa [adjustingState] using h

/-- C6: every user-initiated slider move preserves the single-timer
invariant (it cancels the previously scheduled revert timer, if any,
before scheduling a fresh one), and two rapid successive user moves
(the second one `d < 5000` ms after the first) leave exactly one revert
timer outstanding, whose fire time is anchored 5000 ms after the second
move. -/
theorem C6_debounced_single_timer :
    (∀ g v, timerInv g → timerInv (userMoveSlider g v)) ∧
    (∀ (g : GuiState) (v1 v2 : Int) (d : Nat),
      timerInv g → g.ignore_slider_change = false → d < 5000 →
      (userMoveSlider (tick (userMoveSlider g v1) d) v2).pendingTimers.length = 1 ∧
      (userMoveSlider (tick (userMoveSlider g v1) d) v2).pendingTimers.map Prod.snd
        = [g.now + d + 5000]) := by
  constructor
  · exact timerInv_userMoveSlider
  · intro g v1 v2 d hinv hig hd
    obtain ⟨h1p, h1id, h1next, h1now, h1ig, h1adj, h1v⟩ :=
      userMoveSlider_real g v1 hig hinv
    have hinv1 : timerInv (userMoveSlider g v1) := timerInv_userMoveSlider g v1 hinv
    have hinvt : timerInv (tick (userMoveSlider g v1) d) := by
      unfold timerInv at hinv1 ⊢
      simpa [tick] using hinv1
    obtain ⟨h2p, h2id, h2next, h2now, h2ig, h2adj, h2v⟩ :=
      userMoveSlider_real (tick (userMoveSlider g v1) d) v2 (by simpa [tick] using h1ig)
        hinvt
    rw [h2p]
    simp [tick, h1now]

theorem C6_debounced_single_timer_witness :
    (userMoveSlider (tick (userMoveSlider initState 10) 1000) 20).pendingTimers.length = 1 ∧
    (userMoveSlider (tick (userMoveSlider initState 10) 1000) 20).pendingTimers.map Prod.snd
      = [6000] := by
  have h := C6_debounced_single_timer.2 initState 10 20 1000
    (by unfold timerInv; rfl) rfl (by decide)
  simpa [initState] using h

/-! ## Set-button gating (C7) -/

theorem handle_set_enabled_eq (g : GuiState) (line : List Char) (r : Reading)
    (hp : parseReading line = some r) :
    (handle_device_line g line).set_enabled =
      (match g.client with
       | none => g.set_enabled
       | some _ =>
         if r.stateCode = some 1 then false
         else if r.stateCode = some 0 then true
         else g.set_enabled) := by
  rw [handle_of_parse_some g line r hp]
  simp [applyReading]

/-- C7 is falsified by the code as stated: the gating only runs when a
Device Link is active (`self.client is not None`). With no client, the
line `RPM: 1.0 | SP: 2.0 | STATE: 1` parses successfully with
`stateCode = 1`, yet the confirmation control, enabled beforehand,
stays enabled rather than being disabled. -/
theorem C7_counterexample :
    parseReading "RPM: 1.0 | SP: 2.0 | STATE: 1".data
      = some ⟨1, 2, some 1, "1".data⟩ ∧
    ({ initState with set_enabled := true } : GuiState).client = none ∧
    (handle_device_line { initState with set_enabled := true }
      "RPM: 1.0 | SP: 2.0 | STATE: 1".data).set_enabled = true := by
  refine ⟨by decide, rfl, ?_⟩
  decide

/-- C7 (amended): for every successfully parsed Status Reading,
*provided a Device Link is active*: `stateCode = 1` disables the
command-confirmation control, `stateCode = 0` enables it, any other
value (including absent) leaves it unchanged; with no active Device
Link the control is left unchanged regardless of the state code. -/
theorem C7_gating (g : GuiState) (line : List Char) (r : Reading)
    (hp : parseReading line = some r) :
    (handle_device_line g line).set_enabled =
      (match g.client with
       | none => g.set_enabled
       | some _ =>
         if r.stateCode = some 1 then false
         else if r.stateCode = some 0 then true
         else g.set_enabled) :=
  handle_set_enabled_eq g line r hp

theorem C7_gating_witness :
    (handle_device_line
      { initState with client := some (mkClient 5000), set_enabled := true }
      "RPM: 1.0 | SP: 2.0 | STATE: 1".data).set_enabled = false ∧
    (handle_device_line
      { initState with client := some (mkClient 5000), set_enabled := false }
      "RPM: 1.0 | SP: 2.0 | STATE: 0".data).set_enabled = true ∧
    (handle_device_line
      { initState with client := some (mkClient 5000), set_enabled := true }
      "RPM: 1.0 | SP: 2.0 | STATE: HEATING".data).set_enabled = true := by
  refine ⟨?_, ?_, ?_⟩
  · have h := C7_gating
      { initState with client := some (mkClient 5000), set_enabled := true }
      "RPM: 1.0 | SP: 2.0 | STATE: 1".data ⟨1, 2, some 1, "1".data⟩ (by decide)
    simpa using h
  · have h := C7_gating
      { initState with client := some (mkClient 5000), set_enabled := false }
      "RPM: 1.0 | SP: 2.0 | STATE: 0".data ⟨1, 2, some 0, "0".data⟩ (by decide)
    simpa using h
  · have h := C7_gating
      { initState with client := some (mkClient 5000), set_enabled := true }
      "RPM: 1.0 | SP: 2.0 | STATE: HEATING".data
      ⟨1, 2, none, "HEATING".data⟩ (by decide)
    simpa using h

/-! ## Port validation (C8) -/

/-- C8 is falsified by the code as stated: the entry `-1` is not a
positive integer, yet `int("-1")` succeeds, so no validation error is
surfaced and a Device Link for port `-1` is created and started — a
connection attempt begins. -/
theorem C8_counterexample :
    (on_connect initState "-1".data).client = some (mkClient (-1)) ∧
    (on_connect initState "-1".data).dialogs = [] := by
  constructor
  · decide
  · decide

/-- C8 (amended): the port entry is validated only as a parseable
integer (optional sign), not as a positive one: when `int(port_str)`
fails, a validation error dialog is surfaced synchronously and no
Device Link is created; when it succeeds — including for zero or
negative values — a Device Link for that port is created and started
without any validation error. -/
theorem C8_port_validation (g : GuiState) (ps : List Char) (hg : g.client = none) :
    (pyInt (pyStrip ps) = none →
      on_connect g ps = { g with dialogs := g.dialogs ++ [Dialog.invalidPort] }) ∧
    (∀ p, pyInt (pyStrip ps) = some p →
      on_connect g ps =
        { g with client := some (mkClient p),
                 connect_enabled := false, disconnect_enabled := true,
                 set_enabled := true }) := by
  refine ⟨fun h => ?_, fun p h => ?_⟩
  · unfold on_connect
    simp only [hg, h]
  · unfold on_connect
    simp only [hg, h]

theorem C8_port_validation_witness :
    on_connect initState "bad".data
      = { initState with dialogs := [Dialog.invalidPort] } ∧
    on_connect initState " 5000 ".data
      = { initState with
          client := some (mkClient 5000),
          connect_enabled := false, disconnect_enabled := true,
          set_enabled := true } := by
  constructor
  · have h := (C8_port_validation initState "bad".data rfl).1 (by decide)
    simpa [initState] using h
  · exact (C8_port_validation initState " 5000 ".data rfl).2 5000 (by decide)

/-! ## Device-link send errors (C9) -/

/-- C9 is falsified by the code for the after-`close()` case: `close()`
does not reset `self.sock` to `None`, so a `send_setpoint` after
`close()` attempts the write on the closed socket and reports the
resulting failure as a `Send error` status event — not the claimed
"not connected" event (nothing is written either way). -/
theorem C9_counterexample :
    (clientClose liveClient).sock = some SockState.closed ∧
    (send_setpoint (clientClose liveClient) 5 true).statusMsgs
      = [StatusMsg.connecting, StatusMsg.connected, StatusMsg.sendError] ∧
    StatusMsg.notConnected ∉ (send_setpoint (clientClose liveClient) 5 true).statusMsgs ∧
    (send_setpoint (clientClose liveClient) 5 true).sentValues = [] := by
  refine ⟨by decide, by decide, by decide, by decide⟩

/-- C9 (amended): `send_setpoint` with no socket ever opened
(`sock is None`) emits a `Not connected` status event and writes
nothing; after `close()` the attribute still holds the (closed) socket,
so the write is attempted and its failure surfaces as a `Send error`
status event, again writing nothing; a failed write on a live socket
also surfaces as a `Send error` event; and no send ever signals the
read loop to stop or changes the socket state — a failed write does not
terminate the read loop. -/
theorem C9_send_error_handling (c : HotplateClient) (v : Int) (netOk : Bool) :
    (c.sock = none →
      send_setpoint c v netOk
        = { c with statusMsgs := c.statusMsgs ++ [StatusMsg.notConnected] }) ∧
    (c.sock = some SockState.closed →
      send_setpoint c v netOk
        = { c with statusMsgs := c.statusMsgs ++ [StatusMsg.sendError] }) ∧
    (c.sock = some SockState.active → netOk = false →
      send_setpoint c v netOk
        = { c with statusMsgs := c.statusMsgs ++ [StatusMsg.sendError] }) ∧
    ((send_setpoint c v netOk).stopRequested = c.stopRequested ∧
      (send_setpoint c v netOk).sock = c.sock) := by
  refine ⟨fun h => ?_, fun h => ?_, fun h hn => ?_, ?_⟩
  · unfold send_setpoint
    simp only [h]
  · unfold send_setpoint
    simp only [h]
  · unfold send_setpoint
    simp only [h, hn]
    rfl
  · unfold send_setpoint
    rcases hs : c.sock with _ | st
    · simp
    · rcases st <;> rcases netOk <;> simp

theorem C9_send_error_handling_witness :
    send_setpoint (mkClient 5000) 7 true
      = { mkClient 5000 with
          statusMsgs := [StatusMsg.connecting, StatusMsg.notConnected] } ∧
    (send_setpoint (mkClient 5000) 7 true).sentValues = [] := by
  have h := (C9_send_error_handling (mkClient 5000) 7 true).1 rfl
  constructor
  · simpa [mkClient] using h
  · rw [h]
    simp [mkClient]

/-! ## Readings overwrite the authoritative setpoint while adjusting (C10) -/

/-- C10: while the user is adjusting (Adjusting state with one
outstanding revert timer), a successfully parsed Status Reading still
overwrites the stored authoritative setpoint and the setpoint readout
with the reading's setpoint — only the slider itself is left alone —
so the subsequent timeout revert resets the slider to the *most recent
reading's* setpoint (rounded), not to the value that was authoritative
when the user began adjusting. -/
theorem C10_reading_overwrites_sp_while_adjusting (g : GuiState)
    (line : List Char) (r : Reading) (i t : Nat)
    (hp : parseReading line = some r)
    (hadj : g.user_adjusting_slider = true)
    (hid : g.slider_revert_after_id = some i)
    (hpend : g.pendingTimers = [(i, t)]) :
    (handle_device_line g line).current_sp_value = some r.setpoint ∧
    (handle_device_line g line).sp_var = some r.setpoint ∧
    (handle_device_line g line).sp_slider_var = g.sp_slider_var ∧
    (handle_device_line g line).user_adjusting_slider = true ∧
    (fireRevert (handle_device_line g line) i).sp_slider_var
      = pyRound r.setpoint := by
  rw [handle_of_parse_some g line r hp]
  have hsp1 : (applyReading g r).current_sp_value = some r.setpoint := by
    simp [applyReading]
  have hpend1 : (applyReading g r).pendingTimers = [(i, t)] := by
    simp [applyReading, hpend]
  refine ⟨hsp1, by simp [applyReading], by simp [applyReading, hadj],
          by simp [applyReading, hadj], ?_⟩
  unfold fireRevert revert_slider_to_current_sp
  rw [hpend1, if_neg (by simp)]
  simp [hsp1, on_slider_changed_ignored]

theorem C10_reading_overwrites_sp_witness :
    (handle_device_line { adjustingState with current_sp_value := some 5 }
      "RPM: 1.0 | SP: 9.0 | STATE: 0".data).current_sp_value = some 9 ∧
    (handle_device_line { adjustingState with current_sp_value := some 5 }
      "RPM: 1.0 | SP: 9.0 | STATE: 0".data).sp_var = some 9 ∧
    (handle_device_line { adjustingState with current_sp_value := some 5 }
      "RPM: 1.0 | SP: 9.0 | STATE: 0".data).sp_slider_var = 42 ∧
    (handle_device_line { adjustingState with current_sp_value := some 5 }
      "RPM: 1.0 | SP: 9.0 | STATE: 0".data).user_adjusting_slider = true ∧
    (fireRevert (handle_device_line { adjustingState with current_sp_value := some 5 }
      "RPM: 1.0 | SP: 9.0 | STATE: 0".data) 0).sp_slider_var = 9 := by
  have h := C10_reading_overwrites_sp_while_adjusting
    { adjustingState with current_sp_value := some 5 }
    "RPM: 1.0 | SP: 9.0 | STATE: 0".data ⟨1, 9, some 0, "0".data⟩ 0 5000
    (by decide) (by decide) rfl rfl
  rw [show pyRound ((9 : ℚ)) = 9 from by decide] at h
  simpa [adjustingState] using h
